import Mathlib

/-!
# OpenGLStudy: the texture-mixing demo's parameter toggle and the shader program builder

The development embeds three pieces of the tutorial programs:

* the body of the frame loop of `TextureDemo/src/main_mix.cpp` (lines 179-208), a
  state transition over the globals `g_mix`, `g_wrapIdx`, `g_linearFilter` and the
  locals `last`, `zPrev`, `xPrev`;
* `CheckShaderCompile`, `CheckProgramLink`, `CreateShaderProgram`, `ReadFile` and
  `CreateShaderProgramFromFiles`, which are textually the same in
  `HelloTriangle/src/main.cpp`, `TextureDemo/src/main_single.cpp` and
  `TextureDemo/src/main_mix.cpp`;
* the three `main` functions, as the sequence of library calls they make, the
  status they return and the number of frames they run.

The graphics device, the window system and the file system are collaborators of the
programs.  Calls into the device are recorded in a trace, in program order; what
the collaborators answer is an explicit input of the embedded functions.
`float` values are exact rationals.
-/

namespace OpenGLStudy

/-! ## Device vocabulary -/

/-- A `GLuint` object name. -/
abbrev GLuint := Nat

/-- A `GLint` value. -/
abbrev GLint := Int

/-- Modelled from the spec: the symbolic constants of the graphics API header
(`glad/glad.h`, which is not among the sources) that the programs pass to the
device.  They are kept symbolic; distinct names are distinct values. -/
inductive GLenum
  | GL_TEXTURE_2D
  | GL_TEXTURE_WRAP_S
  | GL_TEXTURE_WRAP_T
  | GL_TEXTURE_MIN_FILTER
  | GL_TEXTURE_MAG_FILTER
  | GL_REPEAT
  | GL_MIRRORED_REPEAT
  | GL_CLAMP_TO_EDGE
  | GL_LINEAR
  | GL_NEAREST
  | GL_LINEAR_MIPMAP_LINEAR
  | GL_NEAREST_MIPMAP_NEAREST
  | GL_VERTEX_SHADER
  | GL_FRAGMENT_SHADER
  | GL_COMPILE_STATUS
  | GL_LINK_STATUS
  | GL_INFO_LOG_LENGTH
  | GL_TEXTURE0
  | GL_TEXTURE1
  | GL_TRIANGLES
  | GL_UNSIGNED_INT
  | GL_COLOR_BUFFER_BIT
  deriving DecidableEq, Repr

open GLenum

/-- One call into the graphics device, with the arguments the program passed.
Out-parameters and results are not part of the call; they are inputs of the
embedded functions. -/
inductive GLCall
  | glBindTexture (target : GLenum) (texture : GLuint)
  | glTexParameteri (target : GLenum) (pname : GLenum) (param : GLenum)
  | glClearColor (r g b a : ℚ)
  | glClear (mask : GLenum)
  | glUseProgram (program : GLuint)
  | glGetUniformLocation (program : GLuint) (name : String)
  | glUniform1f (location : GLint) (v0 : ℚ)
  | glActiveTexture (texture : GLenum)
  | glBindVertexArray (array : GLuint)
  | glDrawElements (mode : GLenum) (count : Nat) (ty : GLenum) (indices : Nat)
  | glCreateShader (ty : GLenum)
  | glShaderSource (shader : GLuint) (source : String)
  | glCompileShader (shader : GLuint)
  | glGetShaderiv (shader : GLuint) (pname : GLenum)
  | glGetShaderInfoLog (shader : GLuint) (bufSize : Nat)
  | glCreateProgram
  | glAttachShader (program : GLuint) (shader : GLuint)
  | glLinkProgram (program : GLuint)
  | glGetProgramiv (program : GLuint) (pname : GLenum)
  | glGetProgramInfoLog (program : GLuint) (bufSize : Nat)
  | glDeleteShader (shader : GLuint)
  deriving DecidableEq

/-! ## The mixing demo: state and frame loop (`main_mix.cpp`) -/

/-- The array `g_wrapModes` (line 15). -/
def g_wrapModes : List GLenum := [GL_REPEAT, GL_MIRRORED_REPEAT, GL_CLAMP_TO_EDGE]

/-- The read `g_wrapModes[i]` with an `int` index: `none` when the index is
outside the array, where the C++ read has no defined value. -/
def wrapModeAt (i : Int) : Option GLenum :=
  if 0 ≤ i then g_wrapModes[i.toNat]? else none

/-- The mutable variables the frame loop works on: the globals of lines 14-17,
the locals `last`, `zPrev`, `xPrev` of lines 176-177, and the close flag of the
window. -/
structure MixState where
  g_mix : ℚ
  g_wrapIdx : Int
  g_linearFilter : Bool
  last : ℚ
  zPrev : Bool
  xPrev : Bool
  shouldClose : Bool
  deriving DecidableEq

/-- The variables the loop only reads: the globals `tex0`, `tex1` (set once at
lines 166-167) and the locals `prog`, `vao`. -/
structure Scene where
  tex0 : GLuint
  tex1 : GLuint
  prog : GLuint
  vao : GLuint
  deriving DecidableEq

/-- What the collaborators answer during one frame: the clock (`glfwGetTime`),
the five `glfwGetKey` queries, and the location `glGetUniformLocation` returns. -/
structure FrameInput where
  now : ℚ
  esc : Bool
  up : Bool
  down : Bool
  z : Bool
  x : Bool
  uMixLoc : GLint
  deriving DecidableEq

/-- What one frame emits: device calls and lines written to `std::cout`. -/
structure FrameOut where
  gl : List GLCall
  cout : List String
  deriving DecidableEq

/-- No output. -/
def FrameOut.empty : FrameOut := { gl := [], cout := [] }

/-- Output of two consecutive pieces of code. -/
def FrameOut.append (a b : FrameOut) : FrameOut :=
  { gl := a.gl ++ b.gl, cout := a.cout ++ b.cout }

/-- The state before the first frame: static initialisers of lines 14-17,
`last = glfwGetTime()` (line 176, the clock reading `t0`), `zPrev = xPrev = false`. -/
def initState (t0 : ℚ) : MixState :=
  { g_mix := 1 / 5, g_wrapIdx := 0, g_linearFilter := true,
    last := t0, zPrev := false, xPrev := false, shouldClose := false }

/-- `applyTexParams(tex)` (lines 20-26): the five device calls, with the current
`g_wrapIdx` and `g_linearFilter`. -/
def applyTexParams (s : MixState) (tex : GLuint) : Option (List GLCall) :=
  match wrapModeAt s.g_wrapIdx with
  | none => none
  | some m =>
    some [ GLCall.glBindTexture GL_TEXTURE_2D tex,
           GLCall.glTexParameteri GL_TEXTURE_2D GL_TEXTURE_WRAP_S m,
           GLCall.glTexParameteri GL_TEXTURE_2D GL_TEXTURE_WRAP_T m,
           GLCall.glTexParameteri GL_TEXTURE_2D GL_TEXTURE_MIN_FILTER
             (if s.g_linearFilter then GL_LINEAR_MIPMAP_LINEAR else GL_NEAREST_MIPMAP_NEAREST),
           GLCall.glTexParameteri GL_TEXTURE_2D GL_TEXTURE_MAG_FILTER
             (if s.g_linearFilter then GL_LINEAR else GL_NEAREST) ]

/-- Lines 180-183: elapsed time, the escape key, and the two held keys that move
`g_mix`; `dt` is `now - last`, and `0.7f` is `7 / 10`. -/
def mixStep (s : MixState) (i : FrameInput) : MixState :=
  let dt : ℚ := i.now - s.last
  let s1 : MixState := { s with last := i.now }
  let s2 : MixState := if i.esc then { s1 with shouldClose := true } else s1
  let s3 : MixState := if i.up then { s2 with g_mix := min 1 (s2.g_mix + 7 / 10 * dt) } else s2
  if i.down then { s3 with g_mix := max 0 (s3.g_mix - 7 / 10 * dt) } else s3

/-- Lines 187-190: the filter toggle, taken when `zNow && !zPrev`. -/
def filterStep (sc : Scene) (s : MixState) (zNow : Bool) : Option (MixState × FrameOut) :=
  if zNow && !s.zPrev then
    let s1 : MixState := { s with g_linearFilter := !s.g_linearFilter }
    match applyTexParams s1 sc.tex0, applyTexParams s1 sc.tex1 with
    | some c0, some c1 =>
      some (s1, { gl := c0 ++ c1,
                  cout := ["Filter: " ++ (if s1.g_linearFilter then "LINEAR" else "NEAREST") ++ "\n"] })
    | _, _ => none
  else some (s, FrameOut.empty)

/-- Lines 191-194: the wrap toggle, taken when `xNow && !xPrev`.  The `%` of C++
truncates towards zero. -/
def wrapStep (sc : Scene) (s : MixState) (xNow : Bool) : Option (MixState × FrameOut) :=
  if xNow && !s.xPrev then
    let s1 : MixState := { s with g_wrapIdx := Int.tmod (s.g_wrapIdx + 1) 3 }
    match applyTexParams s1 sc.tex0, applyTexParams s1 sc.tex1 with
    | some c0, some c1 =>
      some (s1, { gl := c0 ++ c1,
                  cout := ["Wrap: " ++ (if s1.g_wrapIdx = 0 then "REPEAT"
                              else if s1.g_wrapIdx = 1 then "MIRRORED_REPEAT"
                              else "CLAMP_TO_EDGE") ++ "\n"] })
    | _, _ => none
  else some (s, FrameOut.empty)

/-- Lines 180-195: the per-frame update of the state. -/
def frameUpdate (sc : Scene) (s : MixState) (i : FrameInput) : Option (MixState × FrameOut) :=
  let s1 := mixStep s i
  let zNow := i.z
  let xNow := i.x
  match filterStep sc s1 zNow with
  | none => none
  | some (s2, o2) =>
    match wrapStep sc s2 xNow with
    | none => none
    | some (s3, o3) =>
      some ({ s3 with zPrev := zNow, xPrev := xNow }, o2.append o3)

/-- Lines 197-205: the drawing half of the frame (the window calls of line 207
are not device calls). -/
def frameRender (sc : Scene) (s : MixState) (i : FrameInput) : FrameOut :=
  { gl := [ GLCall.glClearColor (2 / 25) (2 / 25) (1 / 10) 1,
            GLCall.glClear GL_COLOR_BUFFER_BIT,
            GLCall.glUseProgram sc.prog,
            GLCall.glGetUniformLocation sc.prog "uMix",
            GLCall.glUniform1f i.uMixLoc s.g_mix,
            GLCall.glActiveTexture GL_TEXTURE0,
            GLCall.glBindTexture GL_TEXTURE_2D sc.tex0,
            GLCall.glActiveTexture GL_TEXTURE1,
            GLCall.glBindTexture GL_TEXTURE_2D sc.tex1,
            GLCall.glBindVertexArray sc.vao,
            GLCall.glDrawElements GL_TRIANGLES 6 GL_UNSIGNED_INT 0 ],
    cout := [] }

/-- One iteration of the loop body (lines 180-207). -/
def frame (sc : Scene) (s : MixState) (i : FrameInput) : Option (MixState × FrameOut) :=
  match frameUpdate sc s i with
  | none => none
  | some (s1, o1) => some (s1, o1.append (frameRender sc s1 i))

/-- The loop body executed once for each listed frame, in order. -/
def runFrames (sc : Scene) : MixState → List FrameInput → Option (MixState × FrameOut)
  | s, [] => some (s, FrameOut.empty)
  | s, i :: rest =>
    match frame sc s i with
    | none => none
    | some (s1, o1) =>
      match runFrames sc s1 rest with
      | none => none
      | some (s2, o2) => some (s2, o1.append o2)

/-- The number of rising edges of a key: frames in which it is pressed and was
not pressed in the preceding frame (`prev` is its state before the first frame). -/
def risingEdges : Bool → List Bool → Nat
  | _, [] => 0
  | prev, now :: rest => (if now && !prev then 1 else 0) + risingEdges now rest

/-- The wrap index is a valid index into `g_wrapModes`. -/
def WrapIdxValid (s : MixState) : Prop := 0 ≤ s.g_wrapIdx ∧ s.g_wrapIdx < 3

instance (s : MixState) : Decidable (WrapIdxValid s) := by
  unfold WrapIdxValid; infer_instance

/-! ## Reading a frame's device calls -/

/-- Modelled from the spec: the part of the device's state that decides which
texture object a sampling-parameter call configures (the device is a collaborator,
not code of the programs): the active texture unit and the object bound to the
2D target of each unit. -/
structure TexUnits where
  active : GLenum
  bound : GLenum → GLuint

/-- One sampling parameter written to one texture object. -/
structure ParamWrite where
  tex : GLuint
  pname : GLenum
  value : GLenum
  deriving DecidableEq

/-- Modelled from the spec: the device's rule for texture calls (the device is a
collaborator, not code of the programs).  `glActiveTexture` selects the unit,
`glBindTexture` binds an object to the 2D target of the selected unit, and
`glTexParameteri` writes to the object bound there.  The result lists the
parameter writes of a call sequence in order. -/
def paramWrites : TexUnits → List GLCall → List ParamWrite
  | _, [] => []
  | u, GLCall.glActiveTexture t :: rest =>
    paramWrites { u with active := t } rest
  | u, GLCall.glBindTexture GL_TEXTURE_2D t :: rest =>
    paramWrites { u with bound := fun k => if k = u.active then t else u.bound k } rest
  | u, GLCall.glTexParameteri GL_TEXTURE_2D p v :: rest =>
    { tex := u.bound u.active, pname := p, value := v } :: paramWrites u rest
  | u, _ :: rest => paramWrites u rest

/-- The last value written to parameter `p` of texture object `t`, if any. -/
def lastWrite : List ParamWrite → GLuint → GLenum → Option GLenum
  | [], _, _ => none
  | w :: rest, t, p =>
    match lastWrite rest t p with
    | some v => some v
    | none => if w.tex = t ∧ w.pname = p then some w.value else none

/-- The five device calls that bind `tex` and give it the wrap mode `m` and the
filters that `linear` selects. -/
def texParamCalls (m : GLenum) (linear : Bool) (tex : GLuint) : List GLCall :=
  [ GLCall.glBindTexture GL_TEXTURE_2D tex,
    GLCall.glTexParameteri GL_TEXTURE_2D GL_TEXTURE_WRAP_S m,
    GLCall.glTexParameteri GL_TEXTURE_2D GL_TEXTURE_WRAP_T m,
    GLCall.glTexParameteri GL_TEXTURE_2D GL_TEXTURE_MIN_FILTER
      (if linear then GL_LINEAR_MIPMAP_LINEAR else GL_NEAREST_MIPMAP_NEAREST),
    GLCall.glTexParameteri GL_TEXTURE_2D GL_TEXTURE_MAG_FILTER
      (if linear then GL_LINEAR else GL_NEAREST) ]

/-- The call sets a sampling parameter. -/
def GLCall.isTexParameter : GLCall → Bool
  | GLCall.glTexParameteri _ _ _ => true
  | _ => false

/-- A toggle edge fires in the frame: Z or X is pressed and was not pressed in the
preceding frame. -/
def toggleEdge (s : MixState) (i : FrameInput) : Bool :=
  (i.z && !s.zPrev) || (i.x && !s.xPrev)

/-- The number of frames of a run in which `g_linearFilter` changes. -/
def filterFlips (sc : Scene) : MixState → List FrameInput → Nat
  | _, [] => 0
  | s, i :: rest =>
    match frame sc s i with
    | none => 0
    | some (s1, _) =>
      (if s1.g_linearFilter = s.g_linearFilter then 0 else 1) + filterFlips sc s1 rest

/-! ## The shader program builder -/

/-- What the device answers when `CheckShaderCompile` queries one shader object:
the value `glGetShaderiv` writes for `GL_COMPILE_STATUS` and for
`GL_INFO_LOG_LENGTH` (`none` when the device leaves the out-parameter untouched;
the length is never negative on the device), and the C string
`glGetShaderInfoLog` leaves in the buffer. -/
structure ShaderQuery where
  compileStatus : Option GLint
  infoLogLength : Option Nat
  infoLog : String
  deriving DecidableEq

/-- What the device answers when `CheckProgramLink` queries the program object. -/
structure ProgramQuery where
  linkStatus : Option GLint
  infoLogLength : Option Nat
  infoLog : String
  deriving DecidableEq

/-- Everything the device reports during one run of the builder: the names
returned by the two `glCreateShader` calls and by `glCreateProgram`, and the
answers to the status queries. -/
structure DeviceOutcome where
  vertexShader : GLuint
  vertexQuery : ShaderQuery
  fragmentShader : GLuint
  fragmentQuery : ShaderQuery
  program : GLuint
  programQuery : ProgramQuery
  deriving DecidableEq

/-- The observable effects of the builder so far: device calls and messages
written to `stderr`, both in program order. -/
structure World where
  gl : List GLCall
  err : List String
  deriving DecidableEq

/-- Record a device call. -/
def World.call (w : World) (c : GLCall) : World := { w with gl := w.gl ++ [c] }

/-- Record a message written to `stderr`. -/
def World.print (w : World) (msg : String) : World := { w with err := w.err ++ [msg] }

/-- `CheckShaderCompile(shader, name)`.  `success` and `len` start at `0` and
keep that value when the device writes nothing. -/
def CheckShaderCompile (q : ShaderQuery) (shader : GLuint) (name : String) (w : World) : World :=
  let success : GLint := q.compileStatus.getD 0
  let w1 := w.call (GLCall.glGetShaderiv shader GL_COMPILE_STATUS)
  if success = 0 then
    let len : Nat := q.infoLogLength.getD 0
    let w2 := w1.call (GLCall.glGetShaderiv shader GL_INFO_LOG_LENGTH)
    let log : String := q.infoLog
    let w3 := w2.call (GLCall.glGetShaderInfoLog shader len)
    w3.print ("[Shader Compile Error] " ++ name ++ "\n" ++ log ++ "\n")
  else w1

/-- `CheckProgramLink(prog)`. -/
def CheckProgramLink (q : ProgramQuery) (prog : GLuint) (w : World) : World :=
  let success : GLint := q.linkStatus.getD 0
  let w1 := w.call (GLCall.glGetProgramiv prog GL_LINK_STATUS)
  if success = 0 then
    let len : Nat := q.infoLogLength.getD 0
    let w2 := w1.call (GLCall.glGetProgramiv prog GL_INFO_LOG_LENGTH)
    let log : String := q.infoLog
    let w3 := w2.call (GLCall.glGetProgramInfoLog prog len)
    w3.print ("[Program Link Error]\n" ++ log ++ "\n")
  else w1

/-- `CreateShaderProgram(vs, fs)`: returns the program name and the effects. -/
def CreateShaderProgram (o : DeviceOutcome) (vs fs : String) (w : World) : GLuint × World :=
  let v := o.vertexShader
  let w := w.call (GLCall.glCreateShader GL_VERTEX_SHADER)
  let w := w.call (GLCall.glShaderSource v vs)
  let w := w.call (GLCall.glCompileShader v)
  let w := CheckShaderCompile o.vertexQuery v "Vertex" w
  let f := o.fragmentShader
  let w := w.call (GLCall.glCreateShader GL_FRAGMENT_SHADER)
  let w := w.call (GLCall.glShaderSource f fs)
  let w := w.call (GLCall.glCompileShader f)
  let w := CheckShaderCompile o.fragmentQuery f "Fragment" w
  let p := o.program
  let w := w.call GLCall.glCreateProgram
  let w := w.call (GLCall.glAttachShader p v)
  let w := w.call (GLCall.glAttachShader p f)
  let w := w.call (GLCall.glLinkProgram p)
  let w := CheckProgramLink o.programQuery p w
  let w := w.call (GLCall.glDeleteShader v)
  let w := w.call (GLCall.glDeleteShader f)
  (p, w)

/-- The file system as the programs see it: the content of the file at a path,
or `none` when the file cannot be opened. -/
abbrev Files := String → Option String

/-- `ReadFile(path)`. -/
def ReadFile (files : Files) (path : String) (w : World) : String × World :=
  match files path with
  | none => ("", w.print ("Failed to open " ++ path))
  | some content => (content, w)

/-- The text `std::string::c_str()` hands to a reader of C strings: the
characters before the first NUL. -/
def c_str (s : String) : String :=
  String.mk (s.toList.takeWhile (fun c => c ≠ Char.ofNat 0))

/-- `CreateShaderProgramFromFiles(vsPath, fsPath)`. -/
def CreateShaderProgramFromFiles (files : Files) (o : DeviceOutcome)
    (vsPath fsPath : String) (w : World) : GLuint × World :=
  let (vsCode, w) := ReadFile files vsPath w
  let (fsCode, w) := ReadFile files fsPath w
  if vsCode = "" ∨ fsCode = "" then
    (0, w.print ("Shader source empty: " ++ vsPath ++ " or " ++ fsPath))
  else
    let vsSrc := c_str vsCode
    let fsSrc := c_str fsCode
    let v := o.vertexShader
    let w := w.call (GLCall.glCreateShader GL_VERTEX_SHADER)
    let w := w.call (GLCall.glShaderSource v vsSrc)
    let w := w.call (GLCall.glCompileShader v)
    let w := CheckShaderCompile o.vertexQuery v "Vertex" w
    let f := o.fragmentShader
    let w := w.call (GLCall.glCreateShader GL_FRAGMENT_SHADER)
    let w := w.call (GLCall.glShaderSource f fsSrc)
    let w := w.call (GLCall.glCompileShader f)
    let w := CheckShaderCompile o.fragmentQuery f "Fragment" w
    let p := o.program
    let w := w.call GLCall.glCreateProgram
    let w := w.call (GLCall.glAttachShader p v)
    let w := w.call (GLCall.glAttachShader p f)
    let w := w.call (GLCall.glLinkProgram p)
    let w := CheckProgramLink o.programQuery p w
    let w := w.call (GLCall.glDeleteShader v)
    let w := w.call (GLCall.glDeleteShader f)
    (p, w)

/-- The calls that only read the device's state. -/
def GLCall.isQuery : GLCall → Bool
  | GLCall.glGetShaderiv _ _ => true
  | GLCall.glGetShaderInfoLog _ _ => true
  | GLCall.glGetProgramiv _ _ => true
  | GLCall.glGetProgramInfoLog _ _ => true
  | GLCall.glGetUniformLocation _ _ => true
  | _ => false

/-- The shader names passed to `glDeleteShader`, in call order. -/
def deletedShaders : List GLCall → List GLuint
  | [] => []
  | GLCall.glDeleteShader s :: rest => s :: deletedShaders rest
  | _ :: rest => deletedShaders rest

/-- The stage a `[Shader Compile Error]` message reports. -/
def compileErrorMessage (name log : String) : String :=
  "[Shader Compile Error] " ++ name ++ "\n" ++ log ++ "\n"

/-- The `[Program Link Error]` message. -/
def linkErrorMessage (log : String) : String :=
  "[Program Link Error]\n" ++ log ++ "\n"

/-- The empty world: nothing called, nothing printed. -/
def World.empty : World := { gl := [], err := [] }

/-- A device run used in the examples: the names 1, 2, 3 are handed out, the
vertex stage compiles, the fragment stage does not, and the link fails. -/
def fragmentFailure : DeviceOutcome :=
  { vertexShader := 1,
    vertexQuery := { compileStatus := some 1, infoLogLength := some 0, infoLog := "" },
    fragmentShader := 2,
    fragmentQuery := { compileStatus := some 0, infoLogLength := some 13, infoLog := "syntax error" },
    program := 3,
    programQuery := { linkStatus := some 0, infoLogLength := some 12, infoLog := "link failed" } }

/-- A device run used in the examples: everything succeeds. -/
def allSucceed : DeviceOutcome :=
  { vertexShader := 1,
    vertexQuery := { compileStatus := some 1, infoLogLength := some 0, infoLog := "" },
    fragmentShader := 2,
    fragmentQuery := { compileStatus := some 1, infoLogLength := some 0, infoLog := "" },
    program := 3,
    programQuery := { linkStatus := some 1, infoLogLength := some 0, infoLog := "" } }

/-- A file system used in the examples: one vertex shader file exists. -/
def oneFile : Files := fun path =>
  if path = "a.vert" then some "#version 330 core" else none

/-- The wrap index after a run of frames, when the run is defined. -/
def wrapIdxAfter (sc : Scene) (s : MixState) (ins : List FrameInput) : Option Int :=
  (runFrames sc s ins).map (fun r => r.1.g_wrapIdx)

/-- A frame's input with the X key pressed. -/
def pressX (i : FrameInput) : FrameInput := { i with x := true }

/-- A frame's input with the X key released. -/
def releaseX (i : FrameInput) : FrameInput := { i with x := false }

/-- A frame's input with the Z key pressed. -/
def pressZ (i : FrameInput) : FrameInput := { i with z := true }

/-- The invariant of the parameter state: the mix weight lies in `[0, 1]` and the
wrap index is one of 0, 1, 2. -/
def Inv (s : MixState) : Prop :=
  0 ≤ s.g_mix ∧ s.g_mix ≤ 1 ∧ (s.g_wrapIdx = 0 ∨ s.g_wrapIdx = 1 ∨ s.g_wrapIdx = 2)

/-- The clock never runs backwards over a run that starts with `last = t`: every
frame's elapsed time `now - last` is non-negative. -/
def clockMonotone : ℚ → List FrameInput → Prop
  | _, [] => True
  | t, i :: rest => t ≤ i.now ∧ clockMonotone i.now rest

/-- The value `CheckShaderCompile` finds in `success` for a shader: the compile
failed when it is `0`. -/
def ShaderQuery.failed (q : ShaderQuery) : Bool := decide (q.compileStatus.getD 0 = 0)

/-- The value `CheckProgramLink` finds in `success`: the link failed when it is `0`. -/
def ProgramQuery.failed (q : ProgramQuery) : Bool := decide (q.linkStatus.getD 0 = 0)

/-- The device calls expected for one stage: create, source, compile, the status
query, and the two log queries when the compile failed. -/
def stageCalls (ty : GLenum) (sh : GLuint) (src : String) (q : ShaderQuery) : List GLCall :=
  [ GLCall.glCreateShader ty, GLCall.glShaderSource sh src, GLCall.glCompileShader sh,
    GLCall.glGetShaderiv sh GL_COMPILE_STATUS ] ++
  (if q.failed then
    [ GLCall.glGetShaderiv sh GL_INFO_LOG_LENGTH,
      GLCall.glGetShaderInfoLog sh (q.infoLogLength.getD 0) ]
   else [])

/-- The device calls expected between the stages and the release of the stage
objects: create the program, attach both stages, link, the status query, and the
two log queries when the link failed. -/
def linkCalls (o : DeviceOutcome) : List GLCall :=
  [ GLCall.glCreateProgram,
    GLCall.glAttachShader o.program o.vertexShader,
    GLCall.glAttachShader o.program o.fragmentShader,
    GLCall.glLinkProgram o.program,
    GLCall.glGetProgramiv o.program GL_LINK_STATUS ] ++
  (if o.programQuery.failed then
    [ GLCall.glGetProgramiv o.program GL_INFO_LOG_LENGTH,
      GLCall.glGetProgramInfoLog o.program (o.programQuery.infoLogLength.getD 0) ]
   else [])

/-- The device calls expected of one full run of the builder on the sources
`vs` and `fs`. -/
def builderCalls (o : DeviceOutcome) (vs fs : String) : List GLCall :=
  stageCalls GL_VERTEX_SHADER o.vertexShader vs o.vertexQuery ++
  stageCalls GL_FRAGMENT_SHADER o.fragmentShader fs o.fragmentQuery ++
  linkCalls o ++
  [ GLCall.glDeleteShader o.vertexShader, GLCall.glDeleteShader o.fragmentShader ]

/-- The diagnostics expected of one full run of the builder. -/
def builderMessages (o : DeviceOutcome) : List String :=
  (if o.vertexQuery.failed then [compileErrorMessage "Vertex" o.vertexQuery.infoLog] else []) ++
  (if o.fragmentQuery.failed then
    [compileErrorMessage "Fragment" o.fragmentQuery.infoLog] else []) ++
  (if o.programQuery.failed then [linkErrorMessage o.programQuery.infoLog] else [])

/-- The program-building calls expected of every full run, status and log
queries left out. -/
def buildSteps (o : DeviceOutcome) (vs fs : String) : List GLCall :=
  [ GLCall.glCreateShader GL_VERTEX_SHADER,
    GLCall.glShaderSource o.vertexShader vs,
    GLCall.glCompileShader o.vertexShader,
    GLCall.glCreateShader GL_FRAGMENT_SHADER,
    GLCall.glShaderSource o.fragmentShader fs,
    GLCall.glCompileShader o.fragmentShader,
    GLCall.glCreateProgram,
    GLCall.glAttachShader o.program o.vertexShader,
    GLCall.glAttachShader o.program o.fragmentShader,
    GLCall.glLinkProgram o.program,
    GLCall.glDeleteShader o.vertexShader,
    GLCall.glDeleteShader o.fragmentShader ]

/-- The `glCreateShader` calls of a call sequence, in order. -/
def createShaderCalls : List GLCall → List GLCall
  | [] => []
  | GLCall.glCreateShader ty :: rest => GLCall.glCreateShader ty :: createShaderCalls rest
  | _ :: rest => createShaderCalls rest

/-- The calls of a run release both stage objects after the link: the run ends
with `glDeleteShader` on the vertex name and then on the fragment name, these are
its only `glDeleteShader` calls, the link call comes before them, and both
`glCreateShader` calls come before the link. -/
def ReleasesStages (o : DeviceOutcome) (calls : List GLCall) : Prop :=
  ∃ pre mid : List GLCall,
    calls = pre ++ [GLCall.glLinkProgram o.program] ++ mid ++
      [GLCall.glDeleteShader o.vertexShader, GLCall.glDeleteShader o.fragmentShader] ∧
    deletedShaders pre = [] ∧ deletedShaders mid = [] ∧
    createShaderCalls pre =
      [GLCall.glCreateShader GL_VERTEX_SHADER, GLCall.glCreateShader GL_FRAGMENT_SHADER] ∧
    createShaderCalls mid = []

/-- A text contains a marker. -/
def containsMarker (text marker : String) : Prop :=
  ∃ before after : String, text = before ++ marker ++ after

/-- A file system used in the examples: both shader files exist and are not empty. -/
def twoFiles : Files := fun path =>
  if path = "a.vert" then some "#version 330 core"
  else if path = "b.frag" then some "#version 330 core void main(" else none

/-- A device texture state used in the examples: unit 1 active, nothing bound. -/
def nothingBound : TexUnits := { active := GL_TEXTURE1, bound := fun _ => 0 }

/-! ## The entry points -/

/-- What the window system and the function-pointer loader report while a program
starts: whether `glfwInit` succeeded, the window `glfwCreateWindow` returned
(`none` is the null pointer), and whether `gladLoadGLLoader` succeeded. -/
structure Startup where
  glfwInit : Bool
  window : Option Nat
  gladLoad : Bool
  deriving DecidableEq

/-- The observable course of one run of a `main`: the value it returns (`none`
when the run has not returned by the end of the scripted loop tests), the library
calls it makes, by name and in program order, the messages written to `stderr`,
and the number of iterations of the frame loop it executes.  Library calls are
taken to return to the program. -/
structure MainRun where
  status : Option Int
  calls : List String
  err : List String
  framesRun : Nat
  deriving DecidableEq

/-- The name of a device call. -/
def GLCall.name : GLCall → String
  | GLCall.glBindTexture _ _ => "glBindTexture"
  | GLCall.glTexParameteri _ _ _ => "glTexParameteri"
  | GLCall.glClearColor _ _ _ _ => "glClearColor"
  | GLCall.glClear _ => "glClear"
  | GLCall.glUseProgram _ => "glUseProgram"
  | GLCall.glGetUniformLocation _ _ => "glGetUniformLocation"
  | GLCall.glUniform1f _ _ => "glUniform1f"
  | GLCall.glActiveTexture _ => "glActiveTexture"
  | GLCall.glBindVertexArray _ => "glBindVertexArray"
  | GLCall.glDrawElements _ _ _ _ => "glDrawElements"
  | GLCall.glCreateShader _ => "glCreateShader"
  | GLCall.glShaderSource _ _ => "glShaderSource"
  | GLCall.glCompileShader _ => "glCompileShader"
  | GLCall.glGetShaderiv _ _ => "glGetShaderiv"
  | GLCall.glGetShaderInfoLog _ _ => "glGetShaderInfoLog"
  | GLCall.glCreateProgram => "glCreateProgram"
  | GLCall.glAttachShader _ _ => "glAttachShader"
  | GLCall.glLinkProgram _ => "glLinkProgram"
  | GLCall.glGetProgramiv _ _ => "glGetProgramiv"
  | GLCall.glGetProgramInfoLog _ _ => "glGetProgramInfoLog"
  | GLCall.glDeleteShader _ => "glDeleteShader"

/-- The library call issues a draw. -/
def isDrawCall (name : String) : Bool :=
  name = "glDrawArrays" || name = "glDrawElements"

/-- A frame loop whose body makes the same calls in every iteration:
`while (!glfwWindowShouldClose(w)) body`.  The list holds what
`glfwWindowShouldClose` answers at each loop test.  Returns the calls, the number
of iterations, and whether the loop was left. -/
def simpleLoop (body : List String) : List Bool → List String × Nat × Bool
  | [] => ([], 0, false)
  | true :: _ => (["glfwWindowShouldClose"], 0, true)
  | false :: rest =>
    match simpleLoop body rest with
    | (calls, n, done) => ("glfwWindowShouldClose" :: body ++ calls, n + 1, done)

/-- `main` of `HelloTriangle/src/main.cpp` (lines 109-260; the extra window hint
under `__APPLE__` is left out). -/
def HelloTriangle_main (st : Startup) (files : Files) (o : DeviceOutcome)
    (closeTests : List Bool) : MainRun :=
  if !st.glfwInit then
    { status := some (-1), calls := ["glfwInit"], err := ["GLFW init failed\n"],
      framesRun := 0 }
  else
    let c1 := ["glfwInit", "glfwWindowHint", "glfwWindowHint", "glfwWindowHint",
      "glfwCreateWindow"]
    match st.window with
    | none =>
      { status := some (-1), calls := c1 ++ ["glfwTerminate"],
        err := ["Failed to create GLFW window\n"], framesRun := 0 }
    | some _ =>
      let c2 := c1 ++ ["glfwMakeContextCurrent", "gladLoadGLLoader"]
      if !st.gladLoad then
        { status := some (-1), calls := c2, err := ["Failed to initialize GLAD\n"],
          framesRun := 0 }
      else
        let c3 := c2 ++ ["glViewport", "glfwSetFramebufferSizeCallback",
          "glGenVertexArrays", "glGenBuffers", "glBindVertexArray", "glBindBuffer",
          "glBufferData", "glVertexAttribPointer", "glEnableVertexAttribArray"]
        let built := CreateShaderProgramFromFiles files o "shaders/uniform.vert"
          "shaders/uniform.frag" World.empty
        let c4 := c3 ++ built.2.gl.map GLCall.name ++ ["glGetUniformLocation"]
        match simpleLoop ["glfwGetTime", "glUseProgram", "glUniform4f", "glBindVertexArray",
            "glDrawArrays", "glfwSwapBuffers", "glfwPollEvents"] closeTests with
        | (loopCalls, n, true) =>
          { status := some 0, calls := c4 ++ loopCalls ++ ["glfwTerminate"],
            err := built.2.err, framesRun := n }
        | (loopCalls, n, false) =>
          { status := none, calls := c4 ++ loopCalls, err := built.2.err, framesRun := n }

/-- What `stbi_load` and `glGenTextures` answer for one image: whether the decoded
data is non-null, and the texture name handed out. -/
structure ImageLoad where
  data : Bool
  tex : GLuint
  deriving DecidableEq

/-- `main` of `TextureDemo/src/main_single.cpp` (lines 110-186).  The results of
`glfwInit`, `glfwCreateWindow` and `gladLoadGLLoader` are discarded. -/
def main_single (st : Startup) (files : Files) (o : DeviceOutcome) (image : ImageLoad)
    (closeTests : List Bool) : MainRun :=
  let _ := st.glfwInit
  let _ := st.window
  let _ := st.gladLoad
  let c1 := ["glfwInit", "glfwWindowHint", "glfwWindowHint", "glfwWindowHint",
    "glfwCreateWindow", "glfwMakeContextCurrent", "gladLoadGLLoader",
    "glfwSetFramebufferSizeCallback",
    "glGenVertexArrays", "glBindVertexArray", "glGenBuffers", "glBindBuffer", "glBufferData",
    "glGenBuffers", "glBindBuffer", "glBufferData",
    "glVertexAttribPointer", "glEnableVertexAttribArray",
    "glVertexAttribPointer", "glEnableVertexAttribArray",
    "glGenTextures", "glBindTexture", "glTexParameteri", "glTexParameteri",
    "glTexParameteri", "glTexParameteri",
    "stbi_set_flip_vertically_on_load", "stbi_load"]
  let c2 := c1 ++ (if image.data then ["glTexImage2D", "glGenerateMipmap"] else []) ++
    ["stbi_image_free"]
  let built := CreateShaderProgramFromFiles files o "shaders/tex_single.vert"
    "shaders/tex_single.frag" World.empty
  let c3 := c2 ++ built.2.gl.map GLCall.name ++
    ["glUseProgram", "glGetUniformLocation", "glUniform1i"]
  match simpleLoop ["glClearColor", "glClear", "glActiveTexture", "glBindTexture",
      "glBindVertexArray", "glDrawElements", "glfwSwapBuffers", "glfwPollEvents"]
      closeTests with
  | (loopCalls, n, true) =>
    { status := some 0,
      calls := c3 ++ loopCalls ++ ["glBindBuffer", "glBindVertexArray",
        "glDeleteVertexArrays", "glDeleteBuffers", "glDeleteBuffers", "glfwDestroyWindow",
        "glfwTerminate"],
      err := built.2.err, framesRun := n }
  | (loopCalls, n, false) =>
    { status := none, calls := c3 ++ loopCalls, err := built.2.err, framesRun := n }

/-- `makeTexture2D(path)` of `main_mix.cpp` (lines 27-38): the texture name
returned, the library calls and the messages written to `stderr`; `none` when
`applyTexParams` reads outside `g_wrapModes`. -/
def makeTexture2D (s : MixState) (path : String) (image : ImageLoad) :
    Option (GLuint × List String × List String) :=
  if !image.data then
    some (0, ["stbi_set_flip_vertically_on_load", "stbi_load"], ["Load fail: " ++ path ++ "\n"])
  else
    match applyTexParams s image.tex with
    | none => none
    | some params =>
      some (image.tex,
        ["stbi_set_flip_vertically_on_load", "stbi_load", "glGenTextures", "glBindTexture"] ++
          params.map GLCall.name ++ ["glTexImage2D", "glGenerateMipmap", "stbi_image_free"],
        [])

/-- One loop test of the mixing demo: what `glfwWindowShouldClose` answers, and the
frame's input if the body runs. -/
structure Tick where
  closed : Bool
  input : FrameInput
  deriving DecidableEq

/-- The window-system calls at the head of the mixing demo's loop body (lines
180-186). -/
def frameWindowCalls (i : FrameInput) : List String :=
  ["glfwGetTime", "glfwGetKey"] ++ (if i.esc then ["glfwSetWindowShouldClose"] else []) ++
    ["glfwGetKey", "glfwGetKey", "glfwGetKey", "glfwGetKey"]

/-- The frame loop of `main_mix.cpp` (lines 179-208).  Returns the calls, the
number of iterations, and whether the loop was left. -/
def mixLoop (sc : Scene) : MixState → List Tick → List String × Nat × Bool
  | _, [] => ([], 0, false)
  | s, t :: rest =>
    if t.closed then (["glfwWindowShouldClose"], 0, true)
    else
      match frame sc s t.input with
      | none => (["glfwWindowShouldClose"], 0, false)
      | some (s1, o) =>
        match mixLoop sc s1 rest with
        | (calls, n, done) =>
          ("glfwWindowShouldClose" :: frameWindowCalls t.input ++ o.gl.map GLCall.name ++
            ["glfwSwapBuffers", "glfwPollEvents"] ++ calls, n + 1, done)

/-- What the collaborators answer to the mixing demo outside the loop tests: the
files, the device's report on the shader build, the two images, the vertex array
name, and the clock reading of line 176. -/
structure MixEnv where
  files : Files
  outcome : DeviceOutcome
  image0 : ImageLoad
  image1 : ImageLoad
  vao : GLuint
  t0 : ℚ

/-- `main` of `TextureDemo/src/main_mix.cpp` (lines 136-211).  The results of
`glfwInit`, `glfwCreateWindow` and `gladLoadGLLoader` are discarded. -/
def main_mix (st : Startup) (env : MixEnv) (ticks : List Tick) : MainRun :=
  let _ := st.glfwInit
  let _ := st.window
  let _ := st.gladLoad
  let c1 := ["glfwInit", "glfwWindowHint", "glfwWindowHint", "glfwWindowHint",
    "glfwCreateWindow", "glfwMakeContextCurrent", "gladLoadGLLoader",
    "glfwSetFramebufferSizeCallback",
    "glGenVertexArrays", "glBindVertexArray", "glGenBuffers", "glBindBuffer", "glBufferData",
    "glGenBuffers", "glBindBuffer", "glBufferData",
    "glVertexAttribPointer", "glEnableVertexAttribArray",
    "glVertexAttribPointer", "glEnableVertexAttribArray",
    "glVertexAttribPointer", "glEnableVertexAttribArray"]
  let s0 := initState env.t0
  match makeTexture2D s0 "assets/container.jpg" env.image0 with
  | none => { status := none, calls := c1, err := [], framesRun := 0 }
  | some (tex0, k0, e0) =>
    match makeTexture2D s0 "assets/awesomeface.png" env.image1 with
    | none => { status := none, calls := c1 ++ k0, err := e0, framesRun := 0 }
    | some (tex1, k1, e1) =>
      let built := CreateShaderProgramFromFiles env.files env.outcome "shaders/tex_mix.vert"
        "shaders/tex_mix.frag" World.empty
      let prog := built.1
      let c2 := c1 ++ k0 ++ k1 ++ built.2.gl.map GLCall.name ++
        ["glUseProgram", "glGetUniformLocation", "glUniform1i", "glGetUniformLocation",
         "glUniform1i", "glfwGetTime"]
      let sc : Scene := { tex0 := tex0, tex1 := tex1, prog := prog, vao := env.vao }
      match mixLoop sc s0 ticks with
      | (loopCalls, n, true) =>
        { status := some 0, calls := c2 ++ loopCalls ++ ["glfwTerminate"],
          err := e0 ++ e1 ++ built.2.err, framesRun := n }
      | (loopCalls, n, false) =>
        { status := none, calls := c2 ++ loopCalls, err := e0 ++ e1 ++ built.2.err,
          framesRun := n }

/-- An environment of the mixing demo used in the examples: both shader files
exist, the build succeeds, both images load. -/
def sampleMixEnv : MixEnv :=
  { files := fun path =>
      if path = "shaders/tex_mix.vert" then some "#version 330 core"
      else if path = "shaders/tex_mix.frag" then some "#version 330 core" else none,
    outcome := allSucceed,
    image0 := { data := true, tex := 1 },
    image1 := { data := true, tex := 2 },
    vao := 1,
    t0 := 0 }

/-- A start in which only the function-pointer loader reports failure. -/
def loaderFails : Startup := { glfwInit := true, window := some 1, gladLoad := false }

/-- A frame's input with the Up and Down keys both held. -/
def holdUpDown (i : FrameInput) : FrameInput := { i with up := true, down := true }

/-! ## Lemmas on the frame loop -/

theorem wrapModeAt_of_valid (i : Int) (h0 : 0 ≤ i) (h3 : i < 3) :
    wrapModeAt i = g_wrapModes[i.toNat]? ∧ ∃ m, wrapModeAt i = some m := by
  have hi : i = 0 ∨ i = 1 ∨ i = 2 := by omega
  rcases hi with rfl | rfl | rfl <;> simp [wrapModeAt, g_wrapModes]

theorem wrapModeAt_none_of_invalid (i : Int) (h : ¬ (0 ≤ i ∧ i < 3)) : wrapModeAt i = none := by
  unfold wrapModeAt
  by_cases h0 : 0 ≤ i
  · have h3 : 3 ≤ i.toNat := by omega
    simp [h0, g_wrapModes, h3]
  · simp [h0]

theorem tmod_three_valid (i : Int) (h0 : 0 ≤ i) (h3 : i < 3) :
    0 ≤ Int.tmod (i + 1) 3 ∧ Int.tmod (i + 1) 3 < 3 ∧ Int.tmod (i + 1) 3 = (i + 1) % 3 := by
  have hi : i = 0 ∨ i = 1 ∨ i = 2 := by omega
  rcases hi with rfl | rfl | rfl <;> decide

theorem applyTexParams_of_valid (s : MixState) (tex : GLuint) (h : WrapIdxValid s) :
    ∃ m, wrapModeAt s.g_wrapIdx = some m ∧
      applyTexParams s tex = some
        [ GLCall.glBindTexture GL_TEXTURE_2D tex,
          GLCall.glTexParameteri GL_TEXTURE_2D GL_TEXTURE_WRAP_S m,
          GLCall.glTexParameteri GL_TEXTURE_2D GL_TEXTURE_WRAP_T m,
          GLCall.glTexParameteri GL_TEXTURE_2D GL_TEXTURE_MIN_FILTER
            (if s.g_linearFilter then GL_LINEAR_MIPMAP_LINEAR else GL_NEAREST_MIPMAP_NEAREST),
          GLCall.glTexParameteri GL_TEXTURE_2D GL_TEXTURE_MAG_FILTER
            (if s.g_linearFilter then GL_LINEAR else GL_NEAREST) ] := by
  obtain ⟨m, hm⟩ := (wrapModeAt_of_valid s.g_wrapIdx h.1 h.2).2
  exact ⟨m, hm, by simp only [applyTexParams, hm]⟩

theorem filterStep_of_valid (sc : Scene) (s : MixState) (zNow : Bool) (h : WrapIdxValid s) :
    ∃ o, filterStep sc s zNow = some
      ({ s with g_linearFilter :=
           if (zNow && !s.zPrev) = true then !s.g_linearFilter else s.g_linearFilter }, o) := by
  unfold filterStep
  by_cases hz : (zNow && !s.zPrev) = true
  · have hv : WrapIdxValid { s with g_linearFilter := !s.g_linearFilter } := h
    obtain ⟨m0, _, h0⟩ := applyTexParams_of_valid _ sc.tex0 hv
    obtain ⟨m1, _, h1⟩ := applyTexParams_of_valid _ sc.tex1 hv
    simp only [hz, if_true, h0, h1]
    exact ⟨_, rfl⟩
  · simp only [hz, if_false]
    exact ⟨_, rfl⟩

theorem wrapStep_of_valid (sc : Scene) (s : MixState) (xNow : Bool) (h : WrapIdxValid s) :
    ∃ o, wrapStep sc s xNow = some
      ({ s with g_wrapIdx :=
           if (xNow && !s.xPrev) = true then (s.g_wrapIdx + 1) % 3 else s.g_wrapIdx }, o) := by
  unfold wrapStep
  obtain ⟨t0, t3, te⟩ := tmod_three_valid s.g_wrapIdx h.1 h.2
  by_cases hx : (xNow && !s.xPrev) = true
  · have hv : WrapIdxValid { s with g_wrapIdx := Int.tmod (s.g_wrapIdx + 1) 3 } := ⟨t0, t3⟩
    obtain ⟨m0, _, h0⟩ := applyTexParams_of_valid _ sc.tex0 hv
    obtain ⟨m1, _, h1⟩ := applyTexParams_of_valid _ sc.tex1 hv
    simp only [hx, if_true, h0, h1]
    rw [← te]
    exact ⟨_, rfl⟩
  · simp only [hx, if_false]
    exact ⟨_, rfl⟩

theorem mixStep_fields (s : MixState) (i : FrameInput) :
    (mixStep s i).g_wrapIdx = s.g_wrapIdx ∧ (mixStep s i).g_linearFilter = s.g_linearFilter ∧
    (mixStep s i).zPrev = s.zPrev ∧ (mixStep s i).xPrev = s.xPrev ∧
    (mixStep s i).last = i.now ∧ (mixStep s i).shouldClose = (s.shouldClose || i.esc) := by
  unfold mixStep
  cases i.esc <;> cases i.up <;> cases i.down <;> simp

/-- The state a frame leaves behind when the wrap index is valid on entry. -/
theorem frameUpdate_of_valid (sc : Scene) (s : MixState) (i : FrameInput)
    (h : WrapIdxValid s) :
    ∃ o, frameUpdate sc s i = some
      ({ g_mix := (mixStep s i).g_mix,
         g_wrapIdx := if (i.x && !s.xPrev) = true then (s.g_wrapIdx + 1) % 3 else s.g_wrapIdx,
         g_linearFilter :=
           if (i.z && !s.zPrev) = true then !s.g_linearFilter else s.g_linearFilter,
         last := i.now, zPrev := i.z, xPrev := i.x,
         shouldClose := s.shouldClose || i.esc }, o) := by
  obtain ⟨e1, e2, e3, e4, e5, e6⟩ := mixStep_fields s i
  have hv1 : WrapIdxValid (mixStep s i) := by unfold WrapIdxValid; rw [e1]; exact h
  obtain ⟨o2, h2⟩ := filterStep_of_valid sc (mixStep s i) i.z hv1
  have hv2 : WrapIdxValid { mixStep s i with g_linearFilter :=
      if (i.z && !(mixStep s i).zPrev) = true then !(mixStep s i).g_linearFilter
      else (mixStep s i).g_linearFilter } := hv1
  obtain ⟨o3, h3⟩ := wrapStep_of_valid sc _ i.x hv2
  refine ⟨o2.append o3, ?_⟩
  simp only [e1, e2, e3, e4, e5, e6] at h2 h3
  unfold frameUpdate
  simp only [h2, h3]

theorem frame_of_valid (sc : Scene) (s : MixState) (i : FrameInput)
    (h : WrapIdxValid s) :
    ∃ o, frame sc s i = some
      ({ g_mix := (mixStep s i).g_mix,
         g_wrapIdx := if (i.x && !s.xPrev) = true then (s.g_wrapIdx + 1) % 3 else s.g_wrapIdx,
         g_linearFilter :=
           if (i.z && !s.zPrev) = true then !s.g_linearFilter else s.g_linearFilter,
         last := i.now, zPrev := i.z, xPrev := i.x,
         shouldClose := s.shouldClose || i.esc }, o) := by
  obtain ⟨o, ho⟩ := frameUpdate_of_valid sc s i h
  unfold frame
  rw [ho]
  exact ⟨_, rfl⟩

theorem frame_preserves_valid (sc : Scene) (s s1 : MixState) (i : FrameInput) (o : FrameOut)
    (h : WrapIdxValid s) (hf : frame sc s i = some (s1, o)) : WrapIdxValid s1 := by
  obtain ⟨o1, h1⟩ := frame_of_valid sc s i h
  rw [h1] at hf
  have hs : s1 = _ := (Prod.mk.inj (Option.some.inj hf)).1.symm
  rw [hs]
  obtain ⟨h0, h3⟩ := h
  unfold WrapIdxValid
  by_cases hx : (i.x && !s.xPrev) = true
  · simp only [hx, if_true]; omega
  · simp only [hx, if_false]; exact ⟨h0, h3⟩

theorem runFrames_wrapIdx (sc : Scene) (ins : List FrameInput) :
    ∀ s : MixState, WrapIdxValid s →
      ∃ s1 o, runFrames sc s ins = some (s1, o) ∧ WrapIdxValid s1 ∧
        s1.g_wrapIdx = (s.g_wrapIdx + risingEdges s.xPrev (ins.map (fun i => i.x))) % 3 := by
  induction ins with
  | nil =>
    intro s h
    refine ⟨s, FrameOut.empty, rfl, h, ?_⟩
    obtain ⟨h0, h3⟩ := h
    simp only [List.map_nil, risingEdges]
    omega
  | cons i rest ih =>
    intro s h
    obtain ⟨o1, h1⟩ := frame_of_valid sc s i h
    have hv := frame_preserves_valid sc s _ i o1 h h1
    obtain ⟨s2, o2, h2, hv2, e2⟩ := ih _ hv
    refine ⟨s2, o1.append o2, ?_, hv2, ?_⟩
    · simp only [runFrames, h1, h2]
    · rw [e2]
      obtain ⟨h0, h3⟩ := h
      simp only [List.map_cons, risingEdges]
      by_cases hx : (i.x && !s.xPrev) = true
      · simp only [hx, if_true]; push_cast; omega
      · simp only [hx, if_false]; push_cast; omega

theorem risingEdges_held (bs : List Bool) (h : ∀ b ∈ bs, b = true) : risingEdges true bs = 0 := by
  induction bs with
  | nil => rfl
  | cons b rest ih =>
    have hb : b = true := h b (List.mem_cons_self _ _)
    subst hb
    have := ih (fun c hc => h c (List.mem_cons_of_mem _ hc))
    simp [risingEdges, this]

theorem wrapIdxAfter_init (sc : Scene) (t0 : ℚ) (ins : List FrameInput) :
    wrapIdxAfter sc (initState t0) ins
      = some (((risingEdges false (ins.map (fun i => i.x)) % 3 : Nat) : Int)) := by
  have hv : WrapIdxValid (initState t0) := by unfold WrapIdxValid initState; simp
  obtain ⟨s1, o, h1, _, e1⟩ := runFrames_wrapIdx sc ins (initState t0) hv
  unfold wrapIdxAfter
  rw [h1]
  simp only [Option.map_some']
  rw [e1]
  simp [initState]

/-- Claim C1: starting from `g_wrapIdx = 0` with the X key not pressed before the
first frame, every finite sequence of frames runs to completion, whatever the keys
and clock readings are, and leaves `g_wrapIdx` equal to the number of rising edges
of the X key modulo 3.  The frames press, release, press, release, press visit the
indices 0, 1, 1, 2, 2, 0, and one sustained press of any length advances the index
exactly once. -/
theorem C1_wrap_index_counts_rising_edges :
    (∀ (sc : Scene) (t0 : ℚ) (ins : List FrameInput),
      ∃ s o, runFrames sc (initState t0) ins = some (s, o) ∧
        s.g_wrapIdx = ((risingEdges false (ins.map (fun i => i.x)) % 3 : Nat) : Int)) ∧
    (∀ (sc : Scene) (t0 : ℚ) (i1 i2 i3 i4 i5 : FrameInput),
      wrapIdxAfter sc (initState t0) [] = some 0 ∧
      wrapIdxAfter sc (initState t0) [pressX i1] = some 1 ∧
      wrapIdxAfter sc (initState t0) [pressX i1, releaseX i2] = some 1 ∧
      wrapIdxAfter sc (initState t0) [pressX i1, releaseX i2, pressX i3] = some 2 ∧
      wrapIdxAfter sc (initState t0) [pressX i1, releaseX i2, pressX i3, releaseX i4] = some 2 ∧
      wrapIdxAfter sc (initState t0)
        [pressX i1, releaseX i2, pressX i3, releaseX i4, pressX i5] = some 0) ∧
    (∀ (sc : Scene) (t0 : ℚ) (i : FrameInput) (rest : List FrameInput),
      wrapIdxAfter sc (initState t0) ((i :: rest).map pressX) = some 1) := by
  refine ⟨?_, ?_, ?_⟩
  · intro sc t0 ins
    have hv : WrapIdxValid (initState t0) := by unfold WrapIdxValid initState; simp
    obtain ⟨s1, o, h1, _, e1⟩ := runFrames_wrapIdx sc ins (initState t0) hv
    refine ⟨s1, o, h1, ?_⟩
    rw [e1]
    simp [initState]
  · intro sc t0 i1 i2 i3 i4 i5
    simp only [wrapIdxAfter_init]
    simp [risingEdges, pressX, releaseX]
  · intro sc t0 i rest
    rw [wrapIdxAfter_init]
    have hheld : risingEdges true ((rest.map pressX).map (fun j => j.x)) = 0 := by
      apply risingEdges_held
      intro b hb
      simp only [List.map_map, List.mem_map, Function.comp] at hb
      obtain ⟨j, _, hj⟩ := hb
      rw [← hj]; rfl
    have hx : (pressX i).x = true := rfl
    simp only [List.map_cons, risingEdges, hx, hheld]
    rfl

theorem filterFlips_held (sc : Scene) (rest : List FrameInput) :
    ∀ s : MixState, WrapIdxValid s → s.zPrev = true →
      filterFlips sc s (rest.map pressZ) = 0 := by
  induction rest with
  | nil => intro s _ _; rfl
  | cons j rest ih =>
    intro s hv hz
    obtain ⟨o1, h1⟩ := frame_of_valid sc s (pressZ j) hv
    have hv1 := frame_preserves_valid sc s _ (pressZ j) o1 hv h1
    have hrest := ih _ hv1 rfl
    simp only [List.map_cons, filterFlips, h1, hrest]
    simp [hz]

/-- Claim C2: in a frame entered with a valid wrap index (every reachable state
has one), `g_linearFilter` is negated exactly when Z is pressed in the frame and
was not pressed in the preceding frame, and is unchanged otherwise, whatever the
other keys and the clock are; `zPrev` then holds this frame's Z state, and it is
`false` before the first frame.  Holding Z for one or more consecutive frames
after a frame in which it was not pressed changes the filter in exactly one frame,
the first. -/
theorem C2_filter_flips_on_rising_edge (sc : Scene) (s : MixState) (i : FrameInput)
    (rest : List FrameInput) (t0 : ℚ) (hv : WrapIdxValid s) :
    (initState t0).zPrev = false ∧
    (∃ s1 o, frame sc s i = some (s1, o) ∧ s1.zPrev = i.z ∧
      (s1.g_linearFilter = (!s.g_linearFilter) ↔ (i.z = true ∧ s.zPrev = false)) ∧
      (s1.g_linearFilter = s.g_linearFilter ↔ ¬ (i.z = true ∧ s.zPrev = false))) ∧
    (s.zPrev = false →
      filterFlips sc s ((i :: rest).map pressZ) = 1 ∧
      ∃ s1 o, frame sc s (pressZ i) = some (s1, o) ∧
        s1.g_linearFilter = (!s.g_linearFilter) ∧
        filterFlips sc s1 (rest.map pressZ) = 0) := by
  refine ⟨rfl, ?_, ?_⟩
  · obtain ⟨o1, h1⟩ := frame_of_valid sc s i hv
    refine ⟨_, o1, h1, rfl, ?_, ?_⟩ <;>
      cases hz : i.z <;> cases hp : s.zPrev <;> cases hl : s.g_linearFilter <;> simp
  · intro hz
    obtain ⟨o1, h1⟩ := frame_of_valid sc s (pressZ i) hv
    have hv1 := frame_preserves_valid sc s _ (pressZ i) o1 hv h1
    have hrest := filterFlips_held sc rest _ hv1 rfl
    have hzi : (pressZ i).z = true := rfl
    refine ⟨?_, _, o1, h1, ?_, hrest⟩
    · simp only [List.map_cons, filterFlips, h1, hrest]
      simp [hz, hzi]
    · simp [hz, hzi]

/-- Claim C2 at a concrete input: from the initial state, Z held for three frames. -/
theorem C2_filter_flips_on_rising_edge_witness :
    WrapIdxValid (initState 0) ∧
    filterFlips ⟨1, 2, 3, 1⟩ (initState 0)
      (([⟨1, false, false, false, false, false, 0⟩, ⟨2, false, true, false, false, true, 0⟩,
         ⟨3, false, false, false, false, false, 0⟩] : List FrameInput).map pressZ) = 1 :=
  ⟨by decide,
   ((C2_filter_flips_on_rising_edge ⟨1, 2, 3, 1⟩ (initState 0)
      ⟨1, false, false, false, false, false, 0⟩
      [⟨2, false, true, false, false, true, 0⟩, ⟨3, false, false, false, false, false, 0⟩]
      0 (by decide)).2.2 rfl).1⟩

theorem Inv_valid (s : MixState) (h : Inv s) : WrapIdxValid s := by
  obtain ⟨_, _, h0 | h1 | h2⟩ := h <;> unfold WrapIdxValid <;> omega

theorem mixStep_bounds (s : MixState) (i : FrameInput)
    (h0 : 0 ≤ s.g_mix) (h1 : s.g_mix ≤ 1) (ht : s.last ≤ i.now) :
    0 ≤ (mixStep s i).g_mix ∧ (mixStep s i).g_mix ≤ 1 := by
  have hd : 0 ≤ 7 / 10 * (i.now - s.last) := by
    have : 0 ≤ i.now - s.last := by linarith
    positivity
  have hup0 : 0 ≤ min 1 (s.g_mix + 7 / 10 * (i.now - s.last)) :=
    le_min (by norm_num) (by linarith)
  have hup1 : min 1 (s.g_mix + 7 / 10 * (i.now - s.last)) ≤ 1 := min_le_left _ _
  unfold mixStep
  cases i.esc <;> cases i.up <;> cases i.down <;> simp only [if_true, if_false, Bool.false_eq_true]
  all_goals first
    | exact ⟨h0, h1⟩
    | exact ⟨hup0, hup1⟩
    | exact ⟨le_max_left _ _, max_le (by norm_num) (by linarith)⟩

theorem frame_preserves_Inv (sc : Scene) (s : MixState) (i : FrameInput)
    (h : Inv s) (ht : s.last ≤ i.now) :
    ∃ s1 o, frame sc s i = some (s1, o) ∧ Inv s1 ∧ s1.last = i.now := by
  obtain ⟨o1, e1⟩ := frame_of_valid sc s i (Inv_valid s h)
  have hv := frame_preserves_valid sc s _ i o1 (Inv_valid s h) e1
  obtain ⟨m0, m1⟩ := mixStep_bounds s i h.1 h.2.1 ht
  refine ⟨_, o1, e1, ⟨m0, m1, ?_⟩, rfl⟩
  obtain ⟨v0, v3⟩ := hv
  omega

theorem runFrames_preserves_Inv (sc : Scene) (ins : List FrameInput) :
    ∀ s : MixState, Inv s → clockMonotone s.last ins →
      ∃ s1 o, runFrames sc s ins = some (s1, o) ∧ Inv s1 := by
  induction ins with
  | nil => intro s h _; exact ⟨s, FrameOut.empty, rfl, h⟩
  | cons i rest ih =>
    intro s h hc
    obtain ⟨s1, o1, e1, hi1, hl1⟩ := frame_preserves_Inv sc s i h hc.1
    have hc1 : clockMonotone s1.last rest := by rw [hl1]; exact hc.2
    obtain ⟨s2, o2, e2, hi2⟩ := ih s1 hi1 hc1
    exact ⟨s2, o1.append o2, by simp only [runFrames, e1, e2], hi2⟩

/-- Claim C3: the invariant `0 ≤ g_mix ≤ 1` and `g_wrapIdx ∈ {0, 1, 2}` holds in
the initial state (`g_mix = 0.2`, `g_wrapIdx = 0`, `g_linearFilter = true`); a frame
entered in a state satisfying it, with any keys and a non-negative elapsed time, is
defined (no read outside `g_wrapModes`) and ends in a state satisfying it; hence
every run whose clock never goes backwards ends in such a state, where the read
`g_wrapModes[g_wrapIdx]` is inside the three-element array. -/
theorem C3_invariant_mix_and_wrap_index (sc : Scene) (s : MixState) (i : FrameInput)
    (t0 : ℚ) (ins : List FrameInput) :
    (Inv (initState t0) ∧ (initState t0).g_mix = 1 / 5 ∧ (initState t0).g_wrapIdx = 0 ∧
      (initState t0).g_linearFilter = true) ∧
    (Inv s → s.last ≤ i.now → ∃ s1 o, frame sc s i = some (s1, o) ∧ Inv s1) ∧
    (clockMonotone t0 ins →
      ∃ s1 o, runFrames sc (initState t0) ins = some (s1, o) ∧ Inv s1 ∧
        s1.g_wrapIdx.toNat < g_wrapModes.length ∧
        ∃ m, wrapModeAt s1.g_wrapIdx = some m) := by
  have hinit : Inv (initState t0) := by
    unfold Inv initState
    norm_num
  refine ⟨⟨hinit, rfl, rfl, rfl⟩, ?_, ?_⟩
  · intro h ht
    obtain ⟨s1, o, e, hi, _⟩ := frame_preserves_Inv sc s i h ht
    exact ⟨s1, o, e, hi⟩
  · intro hc
    obtain ⟨s1, o, e, hi⟩ := runFrames_preserves_Inv sc ins (initState t0) hinit hc
    have hv := Inv_valid s1 hi
    refine ⟨s1, o, e, hi, ?_, (wrapModeAt_of_valid _ hv.1 hv.2).2⟩
    obtain ⟨v0, v3⟩ := hv
    simp only [g_wrapModes, List.length_cons, List.length_nil]
    omega

/-- Claim C3 at a concrete input: a run of two frames with Up held and then both
toggles pressed, with the clock advancing. -/
theorem C3_invariant_mix_and_wrap_index_witness :
    clockMonotone 0
      [⟨2, false, true, false, false, false, 0⟩, ⟨3, false, false, true, true, true, 0⟩] ∧
    ∃ s1 o, runFrames ⟨1, 2, 3, 1⟩ (initState 0)
      [⟨2, false, true, false, false, false, 0⟩, ⟨3, false, false, true, true, true, 0⟩]
        = some (s1, o) ∧ Inv s1 ∧
        s1.g_wrapIdx.toNat < g_wrapModes.length ∧
        ∃ m, wrapModeAt s1.g_wrapIdx = some m :=
  have hc : clockMonotone 0
      [⟨2, false, true, false, false, false, 0⟩, ⟨3, false, false, true, true, true, 0⟩] := by
    norm_num [clockMonotone]
  ⟨hc, (C3_invariant_mix_and_wrap_index ⟨1, 2, 3, 1⟩ (initState 0)
      ⟨2, false, true, false, false, false, 0⟩ 0
      [⟨2, false, true, false, false, false, 0⟩, ⟨3, false, false, true, true, true, 0⟩]).2.2 hc⟩

/-- Claim C4: a frame entered with a valid wrap index, weight `w = g_mix` and
elapsed time `dt = now - last` leaves `g_mix = min 1 (w + 0.7 dt)` when Up is held
and Down is not, `max 0 (w - 0.7 dt)` when Down is held and Up is not, and `w` when
neither is held, whatever Z, X and Escape are.  With `w = 0.95`, Up held alone and
`dt = 0.2` the result is exactly `1`, not the unclamped `1.09`. -/
theorem C4_mix_weight_step (sc : Scene) (s : MixState) (i : FrameInput)
    (hv : WrapIdxValid s) :
    ∃ s1 o, frame sc s i = some (s1, o) ∧
      (i.up = true → i.down = false →
        s1.g_mix = min 1 (s.g_mix + 7 / 10 * (i.now - s.last))) ∧
      (i.up = false → i.down = true →
        s1.g_mix = max 0 (s.g_mix - 7 / 10 * (i.now - s.last))) ∧
      (i.up = false → i.down = false → s1.g_mix = s.g_mix) ∧
      (s.g_mix = 19 / 20 → i.now - s.last = 1 / 5 → i.up = true → i.down = false →
        s1.g_mix = 1 ∧ s.g_mix + 7 / 10 * (i.now - s.last) = 109 / 100) := by
  obtain ⟨o1, e1⟩ := frame_of_valid sc s i hv
  have hup : i.up = true → i.down = false →
      (mixStep s i).g_mix = min 1 (s.g_mix + 7 / 10 * (i.now - s.last)) := by
    intro hu hd
    unfold mixStep
    cases i.esc <;> simp [hu, hd]
  refine ⟨_, o1, e1, hup, ?_, ?_, ?_⟩
  · intro hu hd
    show (mixStep s i).g_mix = _
    unfold mixStep
    cases i.esc <;> simp [hu, hd]
  · intro hu hd
    show (mixStep s i).g_mix = _
    unfold mixStep
    cases i.esc <;> simp [hu, hd]
  · intro hw ht hu hd
    show (mixStep s i).g_mix = 1 ∧ _
    rw [hup hu hd, hw, ht]
    norm_num

/-- Claim C4 at a concrete input: `w = 0.95`, Up held alone, `dt = 0.2`. -/
theorem C4_mix_weight_step_witness :
    WrapIdxValid ⟨19 / 20, 0, true, 10, false, false, false⟩ ∧
    ∃ s1 o, frame ⟨1, 2, 3, 1⟩ ⟨19 / 20, 0, true, 10, false, false, false⟩
        ⟨51 / 5, false, true, false, false, false, 0⟩ = some (s1, o) ∧ s1.g_mix = 1 :=
  ⟨by decide,
   by
    obtain ⟨s1, o, e, _, _, _, h⟩ :=
      C4_mix_weight_step ⟨1, 2, 3, 1⟩ ⟨19 / 20, 0, true, 10, false, false, false⟩
        ⟨51 / 5, false, true, false, false, false, 0⟩ (by decide)
    exact ⟨s1, o, e, (h rfl (by norm_num) rfl rfl).1⟩⟩

/-! ## Theorems on the shader program builder -/

/-- The early return of `CreateShaderProgramFromFiles` makes no device call. -/
theorem CreateShaderProgramFromFiles_early_gl (files : Files) (o : DeviceOutcome)
    (vsPath fsPath : String) (w : World)
    (h : (files vsPath).getD "" = "" ∨ (files fsPath).getD "" = "") :
    (CreateShaderProgramFromFiles files o vsPath fsPath w).2.gl = w.gl := by
  unfold CreateShaderProgramFromFiles ReadFile
  rcases hv : files vsPath with _ | vsCode <;> rcases hf : files fsPath with _ | fsCode
  · simp [World.print]
  · simp [World.print]
  · simp [World.print]
  · rw [hv, hf] at h
    simp only [Option.getD_some] at h
    simp [World.print, h]

/-- Claim C5: when either path cannot be opened or names an empty file,
`CreateShaderProgramFromFiles` returns 0, makes no device call, and writes to
`stderr` exactly: `Failed to open <path>` for each path that cannot be opened
(vertex path first), followed by `Shader source empty: <vsPath> or <fsPath>`. -/
theorem C5_missing_or_empty_file_fails_fast (files : Files) (o : DeviceOutcome)
    (vsPath fsPath : String) (w : World)
    (h : (files vsPath = none ∨ files vsPath = some "") ∨
         (files fsPath = none ∨ files fsPath = some "")) :
    (CreateShaderProgramFromFiles files o vsPath fsPath w).1 = 0 ∧
    (CreateShaderProgramFromFiles files o vsPath fsPath w).2.gl = w.gl ∧
    (CreateShaderProgramFromFiles files o vsPath fsPath w).2.err =
      w.err ++ (if files vsPath = none then ["Failed to open " ++ vsPath] else [])
        ++ (if files fsPath = none then ["Failed to open " ++ fsPath] else [])
        ++ ["Shader source empty: " ++ vsPath ++ " or " ++ fsPath] := by
  unfold CreateShaderProgramFromFiles ReadFile
  rcases hv : files vsPath with _ | vsCode <;> rcases hf : files fsPath with _ | fsCode
  · simp [World.print]
  · simp [World.print]
  · simp [World.print]
  · rw [hv, hf] at h
    have hempty : vsCode = "" ∨ fsCode = "" := by
      rcases h with (h | h) | (h | h)
      · cases h
      · exact Or.inl (Option.some.inj h)
      · cases h
      · exact Or.inr (Option.some.inj h)
    simp [World.print, hempty]

/-- Claim C5 at a concrete input: the fragment shader file is missing. -/
theorem C5_missing_or_empty_file_fails_fast_witness :
    (CreateShaderProgramFromFiles oneFile allSucceed "a.vert" "b.frag" World.empty).1 = 0 ∧
    (CreateShaderProgramFromFiles oneFile allSucceed "a.vert" "b.frag" World.empty).2.gl = [] ∧
    (CreateShaderProgramFromFiles oneFile allSucceed "a.vert" "b.frag" World.empty).2.err =
      ["Failed to open b.frag", "Shader source empty: a.vert or b.frag"] := by
  have h := C5_missing_or_empty_file_fails_fast oneFile allSucceed "a.vert" "b.frag"
    World.empty (Or.inr (Or.inl (by decide)))
  have h1 : oneFile "a.vert" ≠ none := by decide
  have h2 : oneFile "b.frag" = none := by decide
  rw [if_neg h1, if_pos h2] at h
  exact h

theorem CheckShaderCompile_run (q : ShaderQuery) (sh : GLuint) (name : String) (w : World) :
    CheckShaderCompile q sh name w =
      { gl := w.gl ++ [GLCall.glGetShaderiv sh GL_COMPILE_STATUS] ++
          (if q.failed then
            [ GLCall.glGetShaderiv sh GL_INFO_LOG_LENGTH,
              GLCall.glGetShaderInfoLog sh (q.infoLogLength.getD 0) ]
           else []),
        err := w.err ++ (if q.failed then [compileErrorMessage name q.infoLog] else []) } := by
  unfold CheckShaderCompile ShaderQuery.failed compileErrorMessage
  by_cases h : q.compileStatus.getD 0 = 0
  · simp [h, World.call, World.print]
  · simp [h, World.call]

theorem CheckProgramLink_run (q : ProgramQuery) (p : GLuint) (w : World) :
    CheckProgramLink q p w =
      { gl := w.gl ++ [GLCall.glGetProgramiv p GL_LINK_STATUS] ++
          (if q.failed then
            [ GLCall.glGetProgramiv p GL_INFO_LOG_LENGTH,
              GLCall.glGetProgramInfoLog p (q.infoLogLength.getD 0) ]
           else []),
        err := w.err ++ (if q.failed then [linkErrorMessage q.infoLog] else []) } := by
  unfold CheckProgramLink ProgramQuery.failed linkErrorMessage
  by_cases h : q.linkStatus.getD 0 = 0
  · simp [h, World.call, World.print]
  · simp [h, World.call]

/-- The whole effect of `CreateShaderProgram`. -/
theorem CreateShaderProgram_run (o : DeviceOutcome) (vs fs : String) (w : World) :
    CreateShaderProgram o vs fs w =
      (o.program, { gl := w.gl ++ builderCalls o vs fs, err := w.err ++ builderMessages o }) := by
  unfold CreateShaderProgram
  simp only [CheckShaderCompile_run, CheckProgramLink_run, World.call, builderCalls,
    builderMessages, stageCalls, linkCalls]
  simp only [List.append_assoc, List.cons_append, List.nil_append, List.append_nil]

/-- The whole effect of `CreateShaderProgramFromFiles` on two files that open and
are not empty. -/
theorem CreateShaderProgramFromFiles_run (files : Files) (o : DeviceOutcome)
    (vsPath fsPath vsCode fsCode : String) (w : World)
    (hv : files vsPath = some vsCode) (hf : files fsPath = some fsCode)
    (hve : vsCode ≠ "") (hfe : fsCode ≠ "") :
    CreateShaderProgramFromFiles files o vsPath fsPath w =
      (o.program, { gl := w.gl ++ builderCalls o (c_str vsCode) (c_str fsCode),
                    err := w.err ++ builderMessages o }) := by
  unfold CreateShaderProgramFromFiles ReadFile
  simp only [hv, hf, hve, hfe, or_self, if_false]
  simp only [CheckShaderCompile_run, CheckProgramLink_run, World.call, builderCalls,
    builderMessages, stageCalls, linkCalls]
  simp only [List.append_assoc, List.cons_append, List.nil_append, List.append_nil]

theorem builderCalls_steps (o : DeviceOutcome) (vs fs : String) :
    (builderCalls o vs fs).filter (fun c => !c.isQuery) = buildSteps o vs fs := by
  unfold builderCalls stageCalls linkCalls buildSteps
  cases o.vertexQuery.failed <;> cases o.fragmentQuery.failed <;>
    cases o.programQuery.failed <;> simp [GLCall.isQuery]

theorem builderCalls_releases (o : DeviceOutcome) (vs fs : String) :
    ReleasesStages o (builderCalls o vs fs) ∧
    deletedShaders (builderCalls o vs fs) = [o.vertexShader, o.fragmentShader] := by
  constructor
  · refine ⟨stageCalls GL_VERTEX_SHADER o.vertexShader vs o.vertexQuery ++
        stageCalls GL_FRAGMENT_SHADER o.fragmentShader fs o.fragmentQuery ++
        [ GLCall.glCreateProgram,
          GLCall.glAttachShader o.program o.vertexShader,
          GLCall.glAttachShader o.program o.fragmentShader ],
      [GLCall.glGetProgramiv o.program GL_LINK_STATUS] ++
        (if o.programQuery.failed then
          [ GLCall.glGetProgramiv o.program GL_INFO_LOG_LENGTH,
            GLCall.glGetProgramInfoLog o.program (o.programQuery.infoLogLength.getD 0) ]
         else []), ?_, ?_, ?_, ?_, ?_⟩
    · unfold builderCalls linkCalls
      simp only [List.append_assoc, List.cons_append, List.nil_append]
    · unfold stageCalls
      cases o.vertexQuery.failed <;> cases o.fragmentQuery.failed <;> simp [deletedShaders]
    · cases o.programQuery.failed <;> simp [deletedShaders]
    · unfold stageCalls
      cases o.vertexQuery.failed <;> cases o.fragmentQuery.failed <;> simp [createShaderCalls]
    · cases o.programQuery.failed <;> simp [createShaderCalls]
  · unfold builderCalls stageCalls linkCalls
    cases o.vertexQuery.failed <;> cases o.fragmentQuery.failed <;>
      cases o.programQuery.failed <;> simp [deletedShaders]

theorem mem_builderCalls (o : DeviceOutcome) (vs fs : String) :
    GLCall.glCompileShader o.vertexShader ∈ builderCalls o vs fs ∧
    GLCall.glCompileShader o.fragmentShader ∈ builderCalls o vs fs ∧
    GLCall.glGetShaderiv o.fragmentShader GL_COMPILE_STATUS ∈ builderCalls o vs fs ∧
    GLCall.glLinkProgram o.program ∈ builderCalls o vs fs := by
  unfold builderCalls stageCalls linkCalls
  simp

theorem fragment_message (log : String) :
    containsMarker (compileErrorMessage "Fragment" log) "Fragment" :=
  ⟨"[Shader Compile Error] ", "\n" ++ log ++ "\n", by
    unfold compileErrorMessage
    simp only [String.append_assoc]⟩

/-- Claim C6, as stated, fails: on a device that hands out the program name 3, with
a vertex stage that compiles and a fragment stage that does not, both builders
return 3, not 0. -/
theorem C6_returns_zero_counterexample :
    fragmentFailure.vertexQuery.failed = false ∧
    fragmentFailure.fragmentQuery.failed = true ∧
    (CreateShaderProgram fragmentFailure "#version 330 core" "#version 330 core void main("
      World.empty).1 = 3 ∧
    ¬ ((CreateShaderProgram fragmentFailure "#version 330 core" "#version 330 core void main("
      World.empty).1 = 0) ∧
    twoFiles "a.vert" = some "#version 330 core" ∧
    twoFiles "b.frag" = some "#version 330 core void main(" ∧
    ¬ ((CreateShaderProgramFromFiles twoFiles fragmentFailure "a.vert" "b.frag"
      World.empty).1 = 0) := by
  have hv : twoFiles "a.vert" = some "#version 330 core" := by decide
  have hf : twoFiles "b.frag" = some "#version 330 core void main(" := by decide
  refine ⟨by decide, by decide, ?_, ?_, hv, hf, ?_⟩
  · rw [CreateShaderProgram_run]; rfl
  · rw [CreateShaderProgram_run]; decide
  · rw [CreateShaderProgramFromFiles_run twoFiles fragmentFailure "a.vert" "b.frag" _ _ _ hv hf
      (by decide) (by decide)]
    decide

/-- Claim C6, amended: when the vertex stage compiles and the fragment stage does
not, `CreateShaderProgram`, and `CreateShaderProgramFromFiles` on two files that
open and are not empty, still compile the vertex stage and issue the link call,
write the `[Shader Compile Error] Fragment` message (which contains `Fragment`) to
`stderr`, and return the name `glCreateProgram` produced. -/
theorem C6_fragment_failure_still_links (files : Files) (o : DeviceOutcome)
    (vs fs vsPath fsPath vsCode fsCode : String) (w : World)
    (hvok : o.vertexQuery.failed = false) (hffail : o.fragmentQuery.failed = true)
    (hv : files vsPath = some vsCode) (hf : files fsPath = some fsCode)
    (hve : vsCode ≠ "") (hfe : fsCode ≠ "") :
    (GLCall.glCompileShader o.vertexShader ∈ (CreateShaderProgram o vs fs w).2.gl ∧
     GLCall.glLinkProgram o.program ∈ (CreateShaderProgram o vs fs w).2.gl ∧
     compileErrorMessage "Fragment" o.fragmentQuery.infoLog
        ∈ (CreateShaderProgram o vs fs w).2.err ∧
     (CreateShaderProgram o vs fs w).1 = o.program) ∧
    (GLCall.glCompileShader o.vertexShader
        ∈ (CreateShaderProgramFromFiles files o vsPath fsPath w).2.gl ∧
     GLCall.glLinkProgram o.program
        ∈ (CreateShaderProgramFromFiles files o vsPath fsPath w).2.gl ∧
     compileErrorMessage "Fragment" o.fragmentQuery.infoLog
        ∈ (CreateShaderProgramFromFiles files o vsPath fsPath w).2.err ∧
     (CreateShaderProgramFromFiles files o vsPath fsPath w).1 = o.program) ∧
    containsMarker (compileErrorMessage "Fragment" o.fragmentQuery.infoLog) "Fragment" := by
  have hmsg : compileErrorMessage "Fragment" o.fragmentQuery.infoLog ∈ builderMessages o := by
    unfold builderMessages
    simp [hvok, hffail]
  rw [CreateShaderProgram_run,
    CreateShaderProgramFromFiles_run files o vsPath fsPath vsCode fsCode w hv hf hve hfe]
  obtain ⟨a1, _, _, a4⟩ := mem_builderCalls o vs fs
  obtain ⟨b1, _, _, b4⟩ := mem_builderCalls o (c_str vsCode) (c_str fsCode)
  refine ⟨⟨?_, ?_, ?_, rfl⟩, ⟨?_, ?_, ?_, rfl⟩, fragment_message _⟩
  · exact List.mem_append_right _ a1
  · exact List.mem_append_right _ a4
  · exact List.mem_append_right _ hmsg
  · exact List.mem_append_right _ b1
  · exact List.mem_append_right _ b4
  · exact List.mem_append_right _ hmsg

/-- Claim C6, amended, at a concrete input: the fragment stage fails on a device
that hands out the program name 3. -/
theorem C6_fragment_failure_still_links_witness :
    fragmentFailure.vertexQuery.failed = false ∧
    fragmentFailure.fragmentQuery.failed = true ∧
    compileErrorMessage "Fragment" "syntax error"
      ∈ (CreateShaderProgramFromFiles twoFiles fragmentFailure "a.vert" "b.frag"
          World.empty).2.err ∧
    (CreateShaderProgramFromFiles twoFiles fragmentFailure "a.vert" "b.frag"
      World.empty).1 = 3 :=
  have h := C6_fragment_failure_still_links twoFiles fragmentFailure "#version 330 core"
    "#version 330 core void main(" "a.vert" "b.frag" "#version 330 core"
    "#version 330 core void main(" World.empty (by decide) (by decide) (by decide) (by decide)
    (by decide) (by decide)
  ⟨by decide, by decide, h.2.1.2.2.1, h.2.1.2.2.2⟩

/-- Claim C7: for every pair of sources and everything the device reports,
`CreateShaderProgram` returns exactly the name `glCreateProgram` produced, and its
device calls, status and log queries aside, are always the same twelve, in order:
create, source and compile the vertex stage, the same for the fragment stage,
create the program, attach both stages, link, delete both stages. -/
theorem C7_builder_always_links_and_returns_program (o : DeviceOutcome) (vs fs : String)
    (w : World) :
    (CreateShaderProgram o vs fs w).1 = o.program ∧
    ∃ calls, (CreateShaderProgram o vs fs w).2.gl = w.gl ++ calls ∧
      calls.filter (fun c => !c.isQuery) = buildSteps o vs fs := by
  rw [CreateShaderProgram_run]
  exact ⟨rfl, builderCalls o vs fs, rfl, builderCalls_steps o vs fs⟩

/-- Claim C8: every run of `CreateShaderProgram`, and every run of
`CreateShaderProgramFromFiles` that gets past the file check, ends with
`glDeleteShader` on the vertex name and on the fragment name; these are the only
`glDeleteShader` calls of the run, they come after the link call, and both
`glCreateShader` calls come before it; the names deleted are exactly the names
created.  A run of `CreateShaderProgramFromFiles` stopped by the file check makes
no device call at all. -/
theorem C8_stage_handles_released (files : Files) (o : DeviceOutcome)
    (vs fs vsPath fsPath : String) (w : World) :
    (∃ calls, (CreateShaderProgram o vs fs w).2.gl = w.gl ++ calls ∧
      ReleasesStages o calls ∧
      deletedShaders calls = [o.vertexShader, o.fragmentShader]) ∧
    (∃ calls, (CreateShaderProgramFromFiles files o vsPath fsPath w).2.gl = w.gl ++ calls ∧
      ((((files vsPath).getD "" = "" ∨ (files fsPath).getD "" = "") ∧ calls = []) ∨
       (¬ ((files vsPath).getD "" = "" ∨ (files fsPath).getD "" = "") ∧
        ReleasesStages o calls ∧
        deletedShaders calls = [o.vertexShader, o.fragmentShader]))) := by
  constructor
  · rw [CreateShaderProgram_run]
    exact ⟨builderCalls o vs fs, rfl, builderCalls_releases o vs fs⟩
  · by_cases hbad : (files vsPath).getD "" = "" ∨ (files fsPath).getD "" = ""
    · have hgl := CreateShaderProgramFromFiles_early_gl files o vsPath fsPath w hbad
      exact ⟨[], by rw [hgl, List.append_nil], Or.inl ⟨hbad, rfl⟩⟩
    · rcases hv : files vsPath with _ | vsCode
      · exact absurd (Or.inl (by rw [hv]; rfl)) hbad
      rcases hf : files fsPath with _ | fsCode
      · exact absurd (Or.inr (by rw [hf]; rfl)) hbad
      have hve : vsCode ≠ "" := fun e => hbad (Or.inl (by rw [hv]; exact e))
      have hfe : fsCode ≠ "" := fun e => hbad (Or.inr (by rw [hf]; exact e))
      rw [CreateShaderProgramFromFiles_run files o vsPath fsPath vsCode fsCode w hv hf hve hfe]
      exact ⟨_, rfl, Or.inr ⟨by rw [hv, hf] at hbad; exact hbad, builderCalls_releases o _ _⟩⟩

/-- Claim C9: the messages one run of `CreateShaderProgram` writes to `stderr` are
exactly, in this order: the `[Shader Compile Error] Vertex` message with the vertex
log when and only when the vertex compile status is failure, the
`[Shader Compile Error] Fragment` message with the fragment log when and only when
the fragment compile status is failure, and the `[Program Link Error]` message with
the program log when and only when the link status is failure.  Nothing is written
when all three succeed, and the fragment stage is compiled and its status queried
whatever the vertex status is. -/
theorem C9_builder_diagnostics (o : DeviceOutcome) (vs fs : String) (w : World) :
    (CreateShaderProgram o vs fs w).2.err =
      w.err ++
        (if o.vertexQuery.compileStatus.getD 0 = 0 then
          ["[Shader Compile Error] " ++ "Vertex" ++ "\n" ++ o.vertexQuery.infoLog ++ "\n"]
         else []) ++
        (if o.fragmentQuery.compileStatus.getD 0 = 0 then
          ["[Shader Compile Error] " ++ "Fragment" ++ "\n" ++ o.fragmentQuery.infoLog ++ "\n"]
         else []) ++
        (if o.programQuery.linkStatus.getD 0 = 0 then
          ["[Program Link Error]\n" ++ o.programQuery.infoLog ++ "\n"]
         else []) ∧
    (o.vertexQuery.compileStatus.getD 0 ≠ 0 → o.fragmentQuery.compileStatus.getD 0 ≠ 0 →
      o.programQuery.linkStatus.getD 0 ≠ 0 → (CreateShaderProgram o vs fs w).2.err = w.err) ∧
    GLCall.glCompileShader o.fragmentShader ∈ (CreateShaderProgram o vs fs w).2.gl ∧
    GLCall.glGetShaderiv o.fragmentShader GL_COMPILE_STATUS
      ∈ (CreateShaderProgram o vs fs w).2.gl := by
  rw [CreateShaderProgram_run]
  obtain ⟨_, m2, m3, _⟩ := mem_builderCalls o vs fs
  refine ⟨?_, ?_, List.mem_append_right _ m2, List.mem_append_right _ m3⟩
  · show w.err ++ builderMessages o = _
    unfold builderMessages ShaderQuery.failed ProgramQuery.failed compileErrorMessage
      linkErrorMessage
    by_cases hv : o.vertexQuery.compileStatus.getD 0 = 0 <;>
      by_cases hf : o.fragmentQuery.compileStatus.getD 0 = 0 <;>
      by_cases hl : o.programQuery.linkStatus.getD 0 = 0 <;>
      simp [hv, hf, hl]
  · intro hv hf hl
    show w.err ++ builderMessages o = _
    unfold builderMessages ShaderQuery.failed ProgramQuery.failed
    simp [hv, hf, hl]

/-- Claim C9 at a concrete input: a device on which everything succeeds. -/
theorem C9_builder_diagnostics_witness :
    allSucceed.vertexQuery.compileStatus.getD 0 ≠ 0 ∧
    allSucceed.fragmentQuery.compileStatus.getD 0 ≠ 0 ∧
    allSucceed.programQuery.linkStatus.getD 0 ≠ 0 ∧
    (CreateShaderProgram allSucceed "#version 330 core" "#version 330 core"
      World.empty).2.err = [] :=
  ⟨by decide, by decide, by decide,
   (C9_builder_diagnostics allSucceed "#version 330 core" "#version 330 core"
      World.empty).2.1 (by decide) (by decide) (by decide)⟩

/-! ## The device calls of a frame -/

theorem applyTexParams_eq (s : MixState) (tex : GLuint) (m : GLenum)
    (hm : wrapModeAt s.g_wrapIdx = some m) :
    applyTexParams s tex = some (texParamCalls m s.g_linearFilter tex) := by
  simp only [applyTexParams, hm, texParamCalls]

theorem filterStep_gl (sc : Scene) (s : MixState) (zNow : Bool) (m : GLenum)
    (hm : wrapModeAt s.g_wrapIdx = some m) :
    ∃ s1 o, filterStep sc s zNow = some (s1, o) ∧
      o.gl = (if (zNow && !s.zPrev) = true then
                texParamCalls m (!s.g_linearFilter) sc.tex0 ++
                texParamCalls m (!s.g_linearFilter) sc.tex1
              else []) := by
  unfold filterStep
  by_cases hz : (zNow && !s.zPrev) = true
  · have hm1 : wrapModeAt ({ s with g_linearFilter := !s.g_linearFilter } : MixState).g_wrapIdx
        = some m := hm
    simp only [hz, if_true, applyTexParams_eq _ _ m hm1]
    exact ⟨_, _, rfl, rfl⟩
  · simp only [hz, if_false]
    exact ⟨_, _, rfl, rfl⟩

theorem wrapStep_gl (sc : Scene) (s : MixState) (xNow : Bool) (m : GLenum)
    (hm : wrapModeAt (if (xNow && !s.xPrev) = true then (s.g_wrapIdx + 1) % 3
            else s.g_wrapIdx) = some m)
    (hv : WrapIdxValid s) :
    ∃ s1 o, wrapStep sc s xNow = some (s1, o) ∧
      o.gl = (if (xNow && !s.xPrev) = true then
                texParamCalls m s.g_linearFilter sc.tex0 ++
                texParamCalls m s.g_linearFilter sc.tex1
              else []) := by
  unfold wrapStep
  obtain ⟨_, _, te⟩ := tmod_three_valid s.g_wrapIdx hv.1 hv.2
  by_cases hx : (xNow && !s.xPrev) = true
  · rw [if_pos hx] at hm
    have hm1 : wrapModeAt
        ({ s with g_wrapIdx := Int.tmod (s.g_wrapIdx + 1) 3 } : MixState).g_wrapIdx = some m := by
      show wrapModeAt (Int.tmod (s.g_wrapIdx + 1) 3) = some m
      rw [te]; exact hm
    simp only [hx, if_true, applyTexParams_eq _ _ m hm1]
    exact ⟨_, _, rfl, rfl⟩
  · simp only [hx, if_false]
    exact ⟨_, _, rfl, rfl⟩

/-- The device calls of a frame entered with a valid wrap index: the parameter
calls of the filter toggle (with the wrap mode on entry), those of the wrap toggle
(with the wrap mode on exit), then the drawing calls. -/
theorem frame_gl_of_valid (sc : Scene) (s : MixState) (i : FrameInput) (hv : WrapIdxValid s) :
    ∃ s1 o m0 m1, frame sc s i = some (s1, o) ∧
      wrapModeAt s.g_wrapIdx = some m0 ∧ wrapModeAt s1.g_wrapIdx = some m1 ∧
      s1.g_linearFilter =
        (if (i.z && !s.zPrev) = true then !s.g_linearFilter else s.g_linearFilter) ∧
      s1.g_wrapIdx =
        (if (i.x && !s.xPrev) = true then (s.g_wrapIdx + 1) % 3 else s.g_wrapIdx) ∧
      o.gl =
        (if (i.z && !s.zPrev) = true then
          texParamCalls m0 s1.g_linearFilter sc.tex0 ++
          texParamCalls m0 s1.g_linearFilter sc.tex1 else []) ++
        (if (i.x && !s.xPrev) = true then
          texParamCalls m1 s1.g_linearFilter sc.tex0 ++
          texParamCalls m1 s1.g_linearFilter sc.tex1 else []) ++
        (frameRender sc s1 i).gl := by
  obtain ⟨o1, e1⟩ := frame_of_valid sc s i hv
  have hv1 := frame_preserves_valid sc s _ i o1 hv e1
  obtain ⟨m0, hm0⟩ := (wrapModeAt_of_valid _ hv.1 hv.2).2
  obtain ⟨m1, hm1⟩ := (wrapModeAt_of_valid _ hv1.1 hv1.2).2
  obtain ⟨f1, f2, f3, f4, f5, f6⟩ := mixStep_fields s i
  have hvm : WrapIdxValid (mixStep s i) := by unfold WrapIdxValid; rw [f1]; exact hv
  have hmm : wrapModeAt (mixStep s i).g_wrapIdx = some m0 := by rw [f1]; exact hm0
  obtain ⟨s2, o2, e2, g2⟩ := filterStep_gl sc (mixStep s i) i.z m0 hmm
  have hs2 := filterStep_of_valid sc (mixStep s i) i.z hvm
  obtain ⟨o2b, e2b⟩ := hs2
  rw [e2] at e2b
  have hs2eq := (Prod.mk.inj (Option.some.inj e2b)).1
  have hv2 : WrapIdxValid s2 := by rw [hs2eq]; exact hvm
  have hx2 : s2.xPrev = s.xPrev := by rw [hs2eq]; exact f4
  have hi2 : s2.g_wrapIdx = s.g_wrapIdx := by rw [hs2eq]; exact f1
  have hl2 : s2.g_linearFilter =
      (if (i.z && !s.zPrev) = true then !s.g_linearFilter else s.g_linearFilter) := by
    rw [hs2eq]; simp only [f2, f3]
  have hm2 : wrapModeAt (if (i.x && !s2.xPrev) = true then (s2.g_wrapIdx + 1) % 3
      else s2.g_wrapIdx) = some m1 := by rw [hx2, hi2]; exact hm1
  obtain ⟨s3, o3, e3, g3⟩ := wrapStep_gl sc s2 i.x m1 hm2 hv2
  have hfu : frameUpdate sc s i
      = some ({ s3 with zPrev := i.z, xPrev := i.x }, o2.append o3) := by
    unfold frameUpdate
    simp only [e2, e3]
  have hfr : frame sc s i = some ({ s3 with zPrev := i.z, xPrev := i.x },
      (o2.append o3).append (frameRender sc { s3 with zPrev := i.z, xPrev := i.x } i)) := by
    unfold frame
    simp only [hfu]
  rw [hfr] at e1
  have hs3 := (Prod.mk.inj (Option.some.inj e1)).1
  refine ⟨_, _, m0, m1, hfr, hm0, ?_, ?_, ?_, ?_⟩
  · rw [hs3]; exact hm1
  · rw [hs3]
  · rw [hs3]
  · have hl3 : ({ s3 with zPrev := i.z, xPrev := i.x } : MixState).g_linearFilter
        = (if (i.z && !s.zPrev) = true then !s.g_linearFilter else s.g_linearFilter) := by
      rw [hs3]
    rw [hl3]
    simp only [FrameOut.append, g2, g3, f2, f3, hx2, hl2]
    by_cases hz : (i.z && !s.zPrev) = true <;> simp [hz]

/-- Claim C10: in a frame entered with a valid wrap index, sampling parameters are
set exactly when a toggle edge (Z or X rising) fires.  When one fires, every
parameter write of the frame lands on `tex0` or `tex1`, and the last value the frame
writes to each of the two textures is that of the state the frame leaves: both wrap
parameters are `g_wrapModes[g_wrapIdx]`, the min filter is `LINEAR_MIPMAP_LINEAR`
and the mag filter `LINEAR` when `g_linearFilter` is true, `NEAREST_MIPMAP_NEAREST`
and `NEAREST` when it is false; this includes the frame in which both edges fire. -/
theorem C10_params_reapplied_on_toggle_edge (sc : Scene) (s : MixState) (i : FrameInput)
    (u : TexUnits) (hv : WrapIdxValid s) :
    ∃ s1 o m, frame sc s i = some (s1, o) ∧ wrapModeAt s1.g_wrapIdx = some m ∧
      (o.gl.any GLCall.isTexParameter = true ↔ toggleEdge s i = true) ∧
      (paramWrites u o.gl ≠ [] ↔ toggleEdge s i = true) ∧
      (toggleEdge s i = true →
        (∀ pw ∈ paramWrites u o.gl, pw.tex = sc.tex0 ∨ pw.tex = sc.tex1) ∧
        ∀ t, t = sc.tex0 ∨ t = sc.tex1 →
          lastWrite (paramWrites u o.gl) t GL_TEXTURE_WRAP_S = some m ∧
          lastWrite (paramWrites u o.gl) t GL_TEXTURE_WRAP_T = some m ∧
          lastWrite (paramWrites u o.gl) t GL_TEXTURE_MIN_FILTER =
            some (if s1.g_linearFilter then GL_LINEAR_MIPMAP_LINEAR
                  else GL_NEAREST_MIPMAP_NEAREST) ∧
          lastWrite (paramWrites u o.gl) t GL_TEXTURE_MAG_FILTER =
            some (if s1.g_linearFilter then GL_LINEAR else GL_NEAREST)) := by
  obtain ⟨s1, o, m0, m1, e, hm0, hm1, _, hidx, hgl⟩ := frame_gl_of_valid sc s i hv
  refine ⟨s1, o, m1, e, hm1, ?_, ?_, ?_⟩
  · rw [hgl]
    unfold toggleEdge
    by_cases hz : (i.z && !s.zPrev) = true <;> by_cases hx : (i.x && !s.xPrev) = true <;>
      simp [hz, hx, texParamCalls, frameRender, GLCall.isTexParameter]
  · rw [hgl]
    unfold toggleEdge
    by_cases hz : (i.z && !s.zPrev) = true <;> by_cases hx : (i.x && !s.xPrev) = true <;>
      simp [hz, hx, texParamCalls, frameRender, paramWrites]
  · intro hedge
    rw [hgl]
    unfold toggleEdge at hedge
    by_cases hz : (i.z && !s.zPrev) = true <;> by_cases hx : (i.x && !s.xPrev) = true
    · refine ⟨?_, ?_⟩
      · simp [hz, hx, texParamCalls, frameRender, paramWrites]
      · intro t ht
        by_cases h01 : sc.tex0 = sc.tex1
        · rcases ht with rfl | rfl <;>
            simp [hz, hx, texParamCalls, frameRender, paramWrites, lastWrite, h01]
        · have h10 : ¬ sc.tex1 = sc.tex0 := fun h => h01 h.symm
          rcases ht with rfl | rfl <;>
            simp [hz, hx, texParamCalls, frameRender, paramWrites, lastWrite, h01, h10]
    · refine ⟨?_, ?_⟩
      · simp [hz, hx, texParamCalls, frameRender, paramWrites]
      · intro t ht
        have hmm : m0 = m1 := by
          rw [hidx, if_neg hx, hm0] at hm1
          exact Option.some.inj hm1
        by_cases h01 : sc.tex0 = sc.tex1
        · rcases ht with rfl | rfl <;>
            simp [hz, hx, texParamCalls, frameRender, paramWrites, lastWrite, h01, hmm]
        · have h10 : ¬ sc.tex1 = sc.tex0 := fun h => h01 h.symm
          rcases ht with rfl | rfl <;>
            simp [hz, hx, texParamCalls, frameRender, paramWrites, lastWrite, h01, h10, hmm]
    · refine ⟨?_, ?_⟩
      · simp [hz, hx, texParamCalls, frameRender, paramWrites]
      · intro t ht
        by_cases h01 : sc.tex0 = sc.tex1
        · rcases ht with rfl | rfl <;>
            simp [hz, hx, texParamCalls, frameRender, paramWrites, lastWrite, h01]
        · have h10 : ¬ sc.tex1 = sc.tex0 := fun h => h01 h.symm
          rcases ht with rfl | rfl <;>
            simp [hz, hx, texParamCalls, frameRender, paramWrites, lastWrite, h01, h10]
    · simp [hz, hx] at hedge

/-- Claim C10 at a concrete input: the first frame, with Z and X both pressed. -/
theorem C10_params_reapplied_on_toggle_edge_witness :
    WrapIdxValid (initState 0) ∧
    toggleEdge (initState 0) ⟨1, false, false, false, true, true, 0⟩ = true ∧
    ∃ s1 o m, frame ⟨1, 2, 3, 1⟩ (initState 0) ⟨1, false, false, false, true, true, 0⟩
        = some (s1, o) ∧ wrapModeAt s1.g_wrapIdx = some m ∧
      lastWrite (paramWrites nothingBound o.gl) 2 GL_TEXTURE_WRAP_S = some m ∧
      lastWrite (paramWrites nothingBound o.gl) 2 GL_TEXTURE_MAG_FILTER
        = some (if s1.g_linearFilter then GL_LINEAR else GL_NEAREST) := by
  obtain ⟨s1, o, m, e, hm, _, _, h⟩ :=
    C10_params_reapplied_on_toggle_edge ⟨1, 2, 3, 1⟩ (initState 0)
      ⟨1, false, false, false, true, true, 0⟩ nothingBound (by decide)
  have hedge : toggleEdge (initState 0) ⟨1, false, false, false, true, true, 0⟩ = true := by
    decide
  obtain ⟨a, _, _, d⟩ := (h hedge).2 2 (Or.inr rfl)
  exact ⟨by decide, hedge, s1, o, m, e, hm, a, d⟩

/-! ## Both directional keys held -/

theorem mixStep_both (s : MixState) (i : FrameInput) :
    (mixStep s (holdUpDown i)).g_mix =
      max 0 (min 1 (s.g_mix + 7 / 10 * (i.now - s.last)) - 7 / 10 * (i.now - s.last)) := by
  unfold mixStep holdUpDown
  cases i.esc <;> simp

/-- Claim C12, as stated, fails: with `g_mix = 0`, both keys held and an elapsed
time of 2 seconds, the frame leaves `g_mix = 0`, equal to the weight on entry,
although `0 + 0.7 * 2 = 1.4` exceeds 1. -/
theorem C12_equality_counterexample :
    ∃ s1 o,
      frame ⟨1, 2, 3, 1⟩ ⟨0, 0, true, 0, false, false, false⟩
        (holdUpDown ⟨2, false, false, false, false, false, 0⟩) = some (s1, o) ∧
      s1.g_mix = 0 ∧
      ¬ (s1.g_mix = (0 : ℚ) ↔ (0 : ℚ) + 7 / 10 * (2 - 0) ≤ 1) := by
  obtain ⟨o, e⟩ := frame_of_valid ⟨1, 2, 3, 1⟩ ⟨0, 0, true, 0, false, false, false⟩
    (holdUpDown ⟨2, false, false, false, false, false, 0⟩) (by decide)
  have hm : (mixStep ⟨0, 0, true, 0, false, false, false⟩
      (holdUpDown ⟨2, false, false, false, false, false, 0⟩)).g_mix = 0 := by
    rw [mixStep_both]
    norm_num
  refine ⟨_, o, e, hm, ?_⟩
  show ¬ ((mixStep ⟨0, 0, true, 0, false, false, false⟩
      (holdUpDown ⟨2, false, false, false, false, false, 0⟩)).g_mix = (0 : ℚ) ↔ _)
  rw [hm]
  norm_num

/-- Claim C12, amended: with Up and Down both held, a weight `w = g_mix` that is
not negative (so every `w` in `[0, 1]`), a non-negative elapsed time `dt` and a
valid wrap index, the frame leaves
`g_mix = max 0 (min 1 (w + 0.7 dt) - 0.7 dt)`: the increase is applied and clamped
before the decrease.  The result is never greater than `w`, and it equals `w`
exactly when `w + 0.7 dt ≤ 1` or `w = 0`.  With `w = 0.95` and `dt = 0.2` the
result is `0.86`. -/
theorem C12_both_keys_clamp_then_decrease (sc : Scene) (s : MixState) (i : FrameInput)
    (hv : WrapIdxValid s) (h0 : 0 ≤ s.g_mix) (ht : s.last ≤ i.now) :
    ∃ s1 o, frame sc s (holdUpDown i) = some (s1, o) ∧
      s1.g_mix =
        max 0 (min 1 (s.g_mix + 7 / 10 * (i.now - s.last)) - 7 / 10 * (i.now - s.last)) ∧
      s1.g_mix ≤ s.g_mix ∧
      (s1.g_mix = s.g_mix ↔
        (s.g_mix + 7 / 10 * (i.now - s.last) ≤ 1 ∨ s.g_mix = 0)) ∧
      (s.g_mix = 19 / 20 → i.now - s.last = 1 / 5 → s1.g_mix = 43 / 50) := by
  obtain ⟨o, e⟩ := frame_of_valid sc s (holdUpDown i) hv
  have hm := mixStep_both s i
  have ha : 0 ≤ 7 / 10 * (i.now - s.last) := by
    have : 0 ≤ i.now - s.last := by linarith
    positivity
  refine ⟨_, o, e, hm, ?_, ?_, ?_⟩
  · show (mixStep s (holdUpDown i)).g_mix ≤ s.g_mix
    rw [hm]
    apply max_le h0
    have := min_le_right 1 (s.g_mix + 7 / 10 * (i.now - s.last))
    linarith
  · show (mixStep s (holdUpDown i)).g_mix = s.g_mix ↔ _
    rw [hm]
    constructor
    · intro heq
      by_cases hle : s.g_mix + 7 / 10 * (i.now - s.last) ≤ 1
      · exact Or.inl hle
      · right
        have hlt : 1 < s.g_mix + 7 / 10 * (i.now - s.last) := lt_of_not_ge hle
        rw [min_eq_left (le_of_lt hlt)] at heq
        rcases le_total 0 (1 - 7 / 10 * (i.now - s.last)) with hpos | hneg
        · rw [max_eq_right hpos] at heq
          linarith
        · rw [max_eq_left hneg] at heq
          exact heq.symm
    · rintro (hle | hz)
      · rw [min_eq_right hle]
        have : s.g_mix + 7 / 10 * (i.now - s.last) - 7 / 10 * (i.now - s.last) = s.g_mix := by
          ring
        rw [this, max_eq_right h0]
      · rw [hz]
        apply le_antisymm
        · apply max_le (le_refl _)
          have := min_le_right 1 ((0 : ℚ) + 7 / 10 * (i.now - s.last))
          linarith
        · exact le_max_left _ _
  · intro hw hdt
    show (mixStep s (holdUpDown i)).g_mix = 43 / 50
    rw [hm, hw, hdt]
    norm_num

/-- Claim C12, amended, at a concrete input: `w = 0.95`, both keys held,
`dt = 0.2`. -/
theorem C12_both_keys_clamp_then_decrease_witness :
    WrapIdxValid ⟨19 / 20, 0, true, 10, false, false, false⟩ ∧
    ∃ s1 o, frame ⟨1, 2, 3, 1⟩ ⟨19 / 20, 0, true, 10, false, false, false⟩
        (holdUpDown ⟨51 / 5, false, false, false, false, false, 0⟩) = some (s1, o) ∧
      s1.g_mix = 43 / 50 :=
  ⟨by decide,
   by
    obtain ⟨s1, o, e, _, _, _, h⟩ :=
      C12_both_keys_clamp_then_decrease ⟨1, 2, 3, 1⟩
        ⟨19 / 20, 0, true, 10, false, false, false⟩
        ⟨51 / 5, false, false, false, false, false, 0⟩ (by decide) (by norm_num)
        (by norm_num)
    exact ⟨s1, o, e, h rfl (by norm_num)⟩⟩

/-! ## Start-up failures in the entry points -/

theorem frame_draws (sc : Scene) (s s1 : MixState) (i : FrameInput) (o : FrameOut)
    (h : frame sc s i = some (s1, o)) : "glDrawElements" ∈ o.gl.map GLCall.name := by
  unfold frame at h
  rcases hu : frameUpdate sc s i with _ | ⟨s2, o2⟩
  · rw [hu] at h; cases h
  · rw [hu] at h
    have ho := (Prod.mk.inj (Option.some.inj h)).2
    rw [← ho]
    simp [FrameOut.append, frameRender, GLCall.name]

theorem makeTexture2D_init (t0 : ℚ) (path : String) (image : ImageLoad) :
    ∃ r, makeTexture2D (initState t0) path image = some r := by
  unfold makeTexture2D
  have hv : WrapIdxValid (initState t0) := by unfold WrapIdxValid initState; simp
  obtain ⟨m, _, hm⟩ := applyTexParams_of_valid (initState t0) image.tex hv
  rcases hd : image.data with _ | _
  · simp only [Bool.not_false, if_true]
    exact ⟨_, rfl⟩
  · simp only [Bool.not_true, Bool.false_eq_true, if_false, hm]
    exact ⟨_, rfl⟩

theorem mixLoop_one_frame (sc : Scene) (t0 : ℚ) (i j : FrameInput) (rest : List Tick) :
    ∃ calls, mixLoop sc (initState t0) (⟨false, i⟩ :: ⟨true, j⟩ :: rest) = (calls, 1, true) ∧
      "glDrawElements" ∈ calls := by
  have hv : WrapIdxValid (initState t0) := by unfold WrapIdxValid initState; simp
  obtain ⟨o, e⟩ := frame_of_valid sc (initState t0) i hv
  have hd := frame_draws sc _ _ i o e
  refine ⟨"glfwWindowShouldClose" :: frameWindowCalls i ++ o.gl.map GLCall.name ++
    ["glfwSwapBuffers", "glfwPollEvents"] ++ ["glfwWindowShouldClose"], ?_, ?_⟩
  · simp only [mixLoop, Bool.false_eq_true, if_false, if_true, e]
  · simp only [List.mem_append]
    exact Or.inl (Or.inl (Or.inr hd))

theorem main_mix_one_frame (st : Startup) (env : MixEnv) (i j : FrameInput)
    (rest : List Tick) :
    (main_mix st env (⟨false, i⟩ :: ⟨true, j⟩ :: rest)).status = some 0 ∧
    (main_mix st env (⟨false, i⟩ :: ⟨true, j⟩ :: rest)).framesRun = 1 ∧
    (main_mix st env (⟨false, i⟩ :: ⟨true, j⟩ :: rest)).calls.any isDrawCall = true := by
  obtain ⟨⟨tex0, k0, e0⟩, h0⟩ := makeTexture2D_init env.t0 "assets/container.jpg" env.image0
  obtain ⟨⟨tex1, k1, e1⟩, h1⟩ := makeTexture2D_init env.t0 "assets/awesomeface.png" env.image1
  obtain ⟨calls, hl, hd⟩ := mixLoop_one_frame
    { tex0 := tex0, tex1 := tex1,
      prog := (CreateShaderProgramFromFiles env.files env.outcome "shaders/tex_mix.vert"
        "shaders/tex_mix.frag" World.empty).1,
      vao := env.vao } env.t0 i j rest
  unfold main_mix
  simp only [h0, h1, hl]
  refine ⟨trivial, trivial, ?_⟩
  rw [List.any_eq_true]
  refine ⟨"glDrawElements", ?_, by decide⟩
  simp only [List.mem_append]
  exact Or.inl (Or.inr hd)

theorem main_mix_status (st : Startup) (env : MixEnv) (ticks : List Tick) :
    (main_mix st env ticks).status = none ∨ (main_mix st env ticks).status = some 0 := by
  unfold main_mix
  rcases h0 : makeTexture2D (initState env.t0) "assets/container.jpg" env.image0
    with _ | ⟨a, b, c⟩
  · simp only [h0]; exact Or.inl trivial
  rcases h1 : makeTexture2D (initState env.t0) "assets/awesomeface.png" env.image1
    with _ | ⟨d, e, f⟩
  · simp only [h0, h1]; exact Or.inl trivial
  rcases hl : mixLoop
      { tex0 := a, tex1 := d,
        prog := (CreateShaderProgramFromFiles env.files env.outcome "shaders/tex_mix.vert"
          "shaders/tex_mix.frag" World.empty).1,
        vao := env.vao } (initState env.t0) ticks with ⟨l, n, _ | _⟩
  · simp only [h0, h1, hl]; exact Or.inl trivial
  · simp only [h0, h1, hl]; exact Or.inr trivial

theorem main_single_status (st : Startup) (files : Files) (o : DeviceOutcome)
    (image : ImageLoad) (tests : List Bool) :
    (main_single st files o image tests).status = none ∨
    (main_single st files o image tests).status = some 0 := by
  unfold main_single
  rcases hl : simpleLoop ["glClearColor", "glClear", "glActiveTexture", "glBindTexture",
      "glBindVertexArray", "glDrawElements", "glfwSwapBuffers", "glfwPollEvents"] tests
    with ⟨l, n, _ | _⟩
  · simp only [hl]; exact Or.inl trivial
  · simp only [hl]; exact Or.inr trivial

theorem main_single_one_frame (st : Startup) (files : Files) (o : DeviceOutcome)
    (image : ImageLoad) (rest : List Bool) :
    (main_single st files o image (false :: true :: rest)).status = some 0 ∧
    (main_single st files o image (false :: true :: rest)).framesRun = 1 ∧
    (main_single st files o image (false :: true :: rest)).calls.any isDrawCall = true := by
  unfold main_single
  simp only [simpleLoop]
  refine ⟨trivial, trivial, ?_⟩
  rw [List.any_eq_true]
  refine ⟨"glDrawElements", ?_, by decide⟩
  simp

/-- Claim C11, checked on the code.  `main` of HelloTriangle returns `-1`, without
running a frame and without a draw call, when `glfwInit` fails, when
`glfwCreateWindow` returns null, and when `gladLoadGLLoader` fails.  The `main`s of
`main_mix.cpp` and `main_single.cpp` discard the three results: their run does not
depend on them, they never return a non-zero status, and whenever the window stays
open for one loop test they run a frame, issue `glDrawElements` and return `0`; in
particular they do so when the loader has reported failure. -/
theorem C11_startup_failure_gated_only_in_HelloTriangle :
    (∀ (w : Option Nat) (g : Bool) (files : Files) (o : DeviceOutcome) (tests : List Bool),
      (HelloTriangle_main ⟨false, w, g⟩ files o tests).status = some (-1) ∧
      (HelloTriangle_main ⟨false, w, g⟩ files o tests).framesRun = 0 ∧
      (HelloTriangle_main ⟨false, w, g⟩ files o tests).calls.any isDrawCall = false) ∧
    (∀ (g : Bool) (files : Files) (o : DeviceOutcome) (tests : List Bool),
      (HelloTriangle_main ⟨true, none, g⟩ files o tests).status = some (-1) ∧
      (HelloTriangle_main ⟨true, none, g⟩ files o tests).framesRun = 0 ∧
      (HelloTriangle_main ⟨true, none, g⟩ files o tests).calls.any isDrawCall = false) ∧
    (∀ (h : Nat) (files : Files) (o : DeviceOutcome) (tests : List Bool),
      (HelloTriangle_main ⟨true, some h, false⟩ files o tests).status = some (-1) ∧
      (HelloTriangle_main ⟨true, some h, false⟩ files o tests).framesRun = 0 ∧
      (HelloTriangle_main ⟨true, some h, false⟩ files o tests).calls.any isDrawCall = false) ∧
    (∀ (st st2 : Startup) (env : MixEnv) (ticks : List Tick),
      main_mix st env ticks = main_mix st2 env ticks) ∧
    (∀ (st st2 : Startup) (files : Files) (o : DeviceOutcome) (image : ImageLoad)
        (tests : List Bool),
      main_single st files o image tests = main_single st2 files o image tests) ∧
    (∀ (st : Startup) (env : MixEnv) (ticks : List Tick),
      (main_mix st env ticks).status = none ∨ (main_mix st env ticks).status = some 0) ∧
    (∀ (st : Startup) (files : Files) (o : DeviceOutcome) (image : ImageLoad)
        (tests : List Bool),
      (main_single st files o image tests).status = none ∨
      (main_single st files o image tests).status = some 0) ∧
    (∀ (st : Startup) (env : MixEnv) (i j : FrameInput) (rest : List Tick),
      (main_mix st env (⟨false, i⟩ :: ⟨true, j⟩ :: rest)).status = some 0 ∧
      (main_mix st env (⟨false, i⟩ :: ⟨true, j⟩ :: rest)).framesRun = 1 ∧
      (main_mix st env (⟨false, i⟩ :: ⟨true, j⟩ :: rest)).calls.any isDrawCall = true) ∧
    (∀ (st : Startup) (files : Files) (o : DeviceOutcome) (image : ImageLoad)
        (rest : List Bool),
      (main_single st files o image (false :: true :: rest)).status = some 0 ∧
      (main_single st files o image (false :: true :: rest)).framesRun = 1 ∧
      (main_single st files o image (false :: true :: rest)).calls.any isDrawCall = true) ∧
    ((main_mix loaderFails sampleMixEnv
        [⟨false, ⟨1, false, false, false, false, false, 0⟩⟩,
         ⟨true, ⟨2, false, false, false, false, false, 0⟩⟩]).status = some 0 ∧
     (main_mix loaderFails sampleMixEnv
        [⟨false, ⟨1, false, false, false, false, false, 0⟩⟩,
         ⟨true, ⟨2, false, false, false, false, false, 0⟩⟩]).framesRun = 1 ∧
     (main_mix loaderFails sampleMixEnv
        [⟨false, ⟨1, false, false, false, false, false, 0⟩⟩,
         ⟨true, ⟨2, false, false, false, false, false, 0⟩⟩]).calls.any isDrawCall = true) ∧
    ((main_single loaderFails twoFiles allSucceed ⟨true, 1⟩ [false, true]).status = some 0 ∧
     (main_single loaderFails twoFiles allSucceed ⟨true, 1⟩ [false, true]).framesRun = 1 ∧
     (main_single loaderFails twoFiles allSucceed ⟨true, 1⟩ [false, true]).calls.any isDrawCall
        = true) := by
  refine ⟨?_, ?_, ?_, ?_, ?_, ?_, ?_, ?_, ?_, ?_, ?_⟩
  · intro w g files o tests
    refine ⟨rfl, rfl, ?_⟩
    show (["glfwInit"] : List String).any isDrawCall = false
    decide
  · intro g files o tests
    refine ⟨rfl, rfl, ?_⟩
    show (["glfwInit", "glfwWindowHint", "glfwWindowHint", "glfwWindowHint",
      "glfwCreateWindow"] ++ ["glfwTerminate"] : List String).any isDrawCall = false
    decide
  · intro h files o tests
    refine ⟨rfl, rfl, ?_⟩
    show (["glfwInit", "glfwWindowHint", "glfwWindowHint", "glfwWindowHint",
      "glfwCreateWindow"] ++ ["glfwMakeContextCurrent", "gladLoadGLLoader"]
        : List String).any isDrawCall = false
    decide
  · intro st st2 env ticks
    rfl
  · intro st st2 files o image tests
    rfl
  · exact main_mix_status
  · exact main_single_status
  · exact main_mix_one_frame
  · exact main_single_one_frame
  · exact main_mix_one_frame loaderFails sampleMixEnv _ _ []
  · exact main_single_one_frame loaderFails twoFiles allSucceed ⟨true, 1⟩ []

end OpenGLStudy
